import Mathlib

/-!
Shallow embedding of the PodcastGeneration TTS core:
engine parameter validation (edge_tts / gtts / pyttsx3), the engine
manager's dispatch (`convert_with_engine`, `validate_voice_for_engine`),
the prosody scaling pipeline (`get_prosody_params`), and the converter
facade's prosody-to-engine translation.

Modelling conventions:
* Python `float` values are modelled as rationals (every Python float is a
  dyadic rational); the single transcendental computation (`10 ** x` in the
  volume conversion) is abstracted as a function parameter `fpow10`, and the
  idealized real-number formula is stated separately over `ℝ`.
* Python `None` becomes `Option.none`; Python truthiness of an optional
  string/int/float is `none`-or-falsy (empty string, zero).
* Error-message strings are built exactly as the source builds them; the
  ASCII apostrophe is produced with `Char.ofNat 39`.
-/

namespace Podcast

/-- ASCII apostrophe as a string (Python messages quote names with it). -/
def apos : String := String.singleton (Char.ofNat 39)

/-- `engines/core/types.py` `ConversionParams`: all-optional parameter record.
`volume` (a Python float) is modelled as `ℚ`. -/
structure ConversionParams where
  voice : Option String := none
  language : Option String := none
  rate : Option String := none
  rate_int : Option Int := none
  pitch : Option String := none
  volume : Option ℚ := none
  slow : Option Bool := none
  style : Option String := none
  style_intensity : Option Int := none
deriving Repr, DecidableEq

/-- Python truthiness of an optional string (`if params.rate:`):
`None` and the empty string are falsy. -/
def pyTruthyStr (o : Option String) : Bool :=
  match o with
  | none => false
  | some s => !s.data.isEmpty

/-- Python truthiness of an optional int (`if params.rate_int:` via `not`):
`None` and `0` are falsy. -/
def pyTruthyInt (o : Option Int) : Bool :=
  match o with
  | none => false
  | some n => n != 0

/-- Python truthiness of an optional float. -/
def pyTruthyQ (o : Option ℚ) : Bool :=
  match o with
  | none => false
  | some q => q != 0

/-- All characters are decimal digits. -/
def allDigits : List Char → Bool
  | [] => true
  | c :: cs => c.isDigit && allDigits cs

/-- `re.match(r'^[+-]\d+U$', s)` for a fixed unit suffix `u`:
a sign, one or more digits, then exactly the unit, then end of string. -/
def matchSignedDigitsUnit (s : String) (u : List Char) : Bool :=
  match s.data with
  | [] => false
  | c :: cs =>
      (c == '+' || c == '-') &&
      (let ds := cs.take (cs.length - u.length)
       let tl := cs.drop (cs.length - u.length)
       tl == u && !ds.isEmpty && allDigits ds)

/-- `EdgeTTSEngine._is_valid_rate_format`: `^[+-]\d+%$`. -/
def is_valid_rate_format (rate : String) : Bool :=
  matchSignedDigitsUnit rate ['%']

/-- `EdgeTTSEngine._is_valid_pitch_format`: `^[+-]\d+Hz$`. -/
def is_valid_pitch_format (pitch : String) : Bool :=
  matchSignedDigitsUnit pitch ['H', 'z']

/-- The list of unsupported-field complaints built by
`EdgeTTSEngine.validate_params` (one entry per populated unsupported field,
in source order: rate_int, volume, slow). -/
def edge_unsupported (p : ConversionParams) : List String :=
  (if p.rate_int.isSome then
    ["rate_int (use " ++ apos ++ "rate" ++ apos ++
      " with percentage format like " ++ apos ++ "+25%" ++ apos ++ ")"]
   else []) ++
  (if p.volume.isSome then ["volume"] else []) ++
  (if p.slow.isSome then ["slow"] else [])

/-- `EdgeTTSEngine.validate_params`. -/
def edge_validate_params (p : ConversionParams) : Bool × String :=
  let unsupported := edge_unsupported p
  if !unsupported.isEmpty then
    (false, "EdgeTTS doesn" ++ apos ++ "t support: " ++
      String.intercalate (", ") unsupported)
  else if pyTruthyStr p.rate && !is_valid_rate_format (p.rate.getD ("")) then
    (false, "Invalid rate format: " ++ apos ++ p.rate.getD ("") ++ apos ++
      ". Use format like " ++ apos ++ "+50%" ++ apos ++ " or " ++ apos ++
      "-25%" ++ apos)
  else if pyTruthyStr p.pitch && !is_valid_pitch_format (p.pitch.getD ("")) then
    (false, "Invalid pitch format: " ++ apos ++ p.pitch.getD ("") ++ apos ++
      ". Use format like " ++ apos ++ "+10Hz" ++ apos ++ " or " ++ apos ++
      "-5Hz" ++ apos)
  else (true, "")

/-- `gTTSEngine._is_valid_language`'s set of common language codes. -/
def gtts_common_languages : List String :=
  ["en", "es", "fr", "de", "it", "pt", "ru", "zh", "ja", "ko", "ar", "hi",
   "nl", "sv", "no", "da", "fi", "pl", "cs", "tr", "th", "vi", "uk"]

/-- Python `str.lower()` restricted to ASCII case mapping. -/
def pyLower (s : String) : String := String.mk (s.data.map Char.toLower)

/-- `language.split('-')[0]`. -/
def baseLang (s : String) : String :=
  String.mk (s.data.takeWhile (fun c => c != '-'))

/-- `gTTSEngine._is_valid_language`. -/
def gtts_is_valid_language (language : String) : Bool :=
  gtts_common_languages.contains (pyLower (baseLang language))

/-- The unsupported-field complaints of `gTTSEngine.validate_params`
(source order: voice, rate, rate_int, pitch, volume). -/
def gtts_unsupported (p : ConversionParams) : List String :=
  (if p.voice.isSome then ["voice (gTTS uses language-based synthesis)"]
   else []) ++
  (if p.rate.isSome then ["rate"] else []) ++
  (if p.rate_int.isSome then ["rate_int"] else []) ++
  (if p.pitch.isSome then ["pitch"] else []) ++
  (if p.volume.isSome then ["volume"] else [])

/-- `gTTSEngine.validate_params`. -/
def gtts_validate_params (p : ConversionParams) : Bool × String :=
  let unsupported := gtts_unsupported p
  if !unsupported.isEmpty then
    (false, "gTTS doesn" ++ apos ++ "t support: " ++
      String.intercalate (", ") unsupported ++
      ". Only supports " ++ apos ++ "language" ++ apos ++ " and " ++ apos ++
      "slow" ++ apos ++ " parameters.")
  else if pyTruthyStr p.language &&
      !gtts_is_valid_language (p.language.getD ("")) then
    (false, "Language " ++ apos ++ p.language.getD ("") ++ apos ++
      " not supported by gTTS")
  else (true, "")

/-- The unsupported-field complaints of `PyTTSx3Engine.validate_params`
(source order: language, rate, pitch, slow). -/
def pyttsx3_unsupported (p : ConversionParams) : List String :=
  (if p.language.isSome then ["language (use specific voice IDs instead)"]
   else []) ++
  (if p.rate.isSome then
    ["rate (use " ++ apos ++ "rate_int" ++ apos ++ " for pyttsx3)"]
   else []) ++
  (if p.pitch.isSome then ["pitch"] else []) ++
  (if p.slow.isSome then ["slow"] else [])

/-- `PyTTSx3Engine.validate_params`. -/
def pyttsx3_validate_params (p : ConversionParams) : Bool × String :=
  let unsupported := pyttsx3_unsupported p
  if !unsupported.isEmpty then
    (false, "pyttsx3 doesn" ++ apos ++ "t support: " ++
      String.intercalate (", ") unsupported ++
      ". Supports " ++ apos ++ "voice" ++ apos ++ ", " ++ apos ++
      "rate_int" ++ apos ++ ", and " ++ apos ++ "volume" ++ apos ++ ".")
  else if p.volume.isSome && !(decide ((0 : ℚ) ≤ p.volume.getD 0) &&
      decide (p.volume.getD 0 ≤ (1 : ℚ))) then
    -- Source appends ", got: {params.volume}"; the float repr is elided here.
    (false, "Volume must be between 0.0 and 1.0")
  else if p.rate_int.isSome && !(decide ((1 : Int) ≤ p.rate_int.getD 0) &&
      decide (p.rate_int.getD 0 ≤ (1000 : Int))) then
    (false, "Rate must be between 1 and 1000 words per minute, got: " ++
      toString (p.rate_int.getD 0))
  else (true, "")

/-! ## Engine manager (`engines/core/manager.py`)

`BaseTTSEngine` itself is not under `src/`; the manager reads only its
`is_available` / `last_error` / `error_count` attributes and calls its
`validate_params` and `convert_text_to_speech` methods, so an engine is
modelled as that state plus its validation function, and the outcome of the
(awaited, external) `convert_text_to_speech` call is an explicit input:
it either returns a boolean or raises with a message.  Whether the output
path exists after the call is likewise an explicit input (`output_exists`);
no file can appear unless the convert call was actually made. -/

structure EngineState where
  is_available : Bool
  last_error : String
  error_count : Nat
deriving Repr, DecidableEq

structure Engine where
  st : EngineState
  validate : ConversionParams → Bool × String

/-- Outcome of an engine's `convert_text_to_speech` call:
it returns a boolean or raises an exception carrying a message. -/
inductive ConvertOutcome where
  | ok : Bool → ConvertOutcome
  | exn : String → ConvertOutcome
deriving Repr, DecidableEq

/-- Result of `EngineManager.convert_with_engine`: the returned
`(success, error_message)` pair, whether the engine's convert operation was
invoked at all, and the registry afterwards (engine state may be mutated on
an exception). -/
structure ConvertResult where
  success : Bool
  message : String
  convert_called : Bool
  engines : List (String × Engine)

/-- Python `str(list_of_str)`: `['a', 'b']`. -/
def renderStrList (xs : List String) : String :=
  "[" ++ String.intercalate (", ") (xs.map (fun s => apos ++ s ++ apos)) ++ "]"

/-- `EngineManager.convert_with_engine` (manager.py lines 45-98).
The registry dict is an association list keyed by engine name. -/
def convert_with_engine (engines : List (String × Engine))
    (engine_name : String) (params : ConversionParams)
    (outcome : ConvertOutcome) (output_exists : Bool) : ConvertResult :=
  match engines.find? (fun pr => pr.1 == engine_name) with
  | none =>
      let available := engines.map Prod.fst
      { success := false,
        message := "Engine " ++ apos ++ engine_name ++ apos ++
          " not found. Available engines: " ++ renderStrList available,
        convert_called := false, engines := engines }
  | some (_, eng) =>
      if !eng.st.is_available then
        { success := false,
          message := "Engine " ++ apos ++ engine_name ++ apos ++
            " is not available. Last error: " ++ eng.st.last_error,
          convert_called := false, engines := engines }
      else
        let v := eng.validate params
        if !v.1 then
          { success := false,
            message := "Invalid parameters for " ++ engine_name ++ ": " ++ v.2,
            convert_called := false, engines := engines }
        else
          match outcome with
          | ConvertOutcome.ok b =>
              if b && output_exists then
                { success := true, message := "",
                  convert_called := true, engines := engines }
              else
                { success := false,
                  message := "Conversion failed with " ++ engine_name,
                  convert_called := true, engines := engines }
          | ConvertOutcome.exn m =>
              { success := false,
                message := "Engine " ++ engine_name ++ " failed: " ++ m,
                convert_called := true,
                engines := engines.map (fun pr =>
                  if pr.1 == engine_name then
                    (pr.1, { pr.2 with st := { pr.2.st with
                        error_count := pr.2.st.error_count + 1,
                        last_error := m } })
                  else pr) }

/-- One entry of a backend's raw voice listing: a Python dict of which
`validate_voice_for_engine` reads the keys `name`, `Name` and `id`
(`nameCap` models the capitalized `Name` key). -/
structure VoiceDict where
  name : Option String := none
  nameCap : Option String := none
  id : Option String := none
deriving Repr, DecidableEq

/-- `v.get('name', v.get('Name', v.get('id', '')))` in
`EngineManager.validate_voice_for_engine`. -/
def voiceDisplayName (v : VoiceDict) : String :=
  v.name.getD (v.nameCap.getD (v.id.getD ("")))

/-- Python `sorted` on strings, restricted to what the proofs use
(an ascending stable merge sort under `String` order). -/
def pySortedStrings (xs : List String) : List String :=
  xs.mergeSort (fun a b => a ≤ b)

/-- `EngineManager.validate_voice_for_engine` (manager.py lines 104-142).
The awaited `engine.list_voices()` result is passed in as `voices`
(the non-raising path; a listing exception returns an error tuple the
claims do not touch). -/
def validate_voice_for_engine (engines : List (String × Engine))
    (engine_name : String) (voice : String) (voices : List VoiceDict) :
    Bool × String :=
  match engines.find? (fun pr => pr.1 == engine_name) with
  | none =>
      (false, "Engine " ++ apos ++ engine_name ++ apos ++ " not found")
  | some (_, eng) =>
      if !eng.st.is_available then
        (false, "Engine " ++ apos ++ engine_name ++ apos ++ " not available")
      else
        let voice_names := voices.map voiceDisplayName
        if voice_names.contains voice then (true, "")
        else
          let sample_voices := (pySortedStrings voice_names).take 10
          let base := "Voice " ++ apos ++ voice ++ apos ++
            " not available in " ++ engine_name ++ ". Available voices: " ++
            String.intercalate (", ") sample_voices
          if voice_names.length > 10 then
            (false, base ++ " (and " ++
              toString (voice_names.length - 10) ++ " more)")
          else (false, base)

/-- `EngineManager.list_available_engines`. -/
def list_available_engines (engines : List (String × Engine)) : List String :=
  (engines.filter (fun pr => pr.2.st.is_available)).map Prod.fst

/-! ## Prosody scaling (`prosody/prosody.py`) -/

/-- Decimal digits to a natural number (most significant first). -/
def digitsToNat : List Char → Nat → Nat
  | [], acc => acc
  | c :: cs, acc => digitsToNat cs (acc * 10 + (c.toNat - 48))

/-- Unsigned part of Python `float(s)` on the plain-decimal subset that the
prosody/converter strings use: `d+`, `d+.d*`, or `.d+` (no exponents,
underscores, whitespace, inf or nan; those raise in the source too or never
occur on the strings this code builds). -/
def pyFloatCore (cs : List Char) : Option ℚ :=
  let ip := cs.takeWhile Char.isDigit
  match cs.drop ip.length with
  | [] => if ip.isEmpty then none else some (digitsToNat ip 0 : ℚ)
  | '.' :: fp =>
      if allDigits fp && !(ip.isEmpty && fp.isEmpty) then
        some ((digitsToNat ip 0 : ℚ) +
          (digitsToNat fp 0 : ℚ) / ((10 : ℚ) ^ fp.length))
      else none
  | _ => none

/-- Python `float(s)` (same subset), handling one optional leading sign. -/
def pyFloat (cs : List Char) : Option ℚ :=
  match cs with
  | [] => none
  | c :: rest =>
      if c == '+' then pyFloatCore rest
      else if c == '-' then (pyFloatCore rest).map Neg.neg
      else pyFloatCore (c :: rest)

/-- Round to nearest integer, ties to even: the rounding of Python's
`f"{x:.0f}"` (modelled on exact rationals; `ℚ` has no negative zero, so the
one case Python would print as `-0` prints as `0` here). -/
def roundHalfEven (q : ℚ) : Int :=
  let f := ⌊q⌋
  let r := q - (f : ℚ)
  if r < 1 / 2 then f
  else if 1 / 2 < r then f + 1
  else if f % 2 = 0 then f else f + 1

/-- Python `f"{x:.0f}"`: the rounded integer, except that a negative value
rounding to zero prints as `-0`. -/
def formatF0 (q : ℚ) : String :=
  if q < 0 ∧ roundHalfEven q = 0 then ("-0") else Int.repr (roundHalfEven q)

/-- `f"{sign_char}{adjusted_value:.0f}{unit}"` with
`sign_char = '+' if adjusted_value >= 0 else ''`. -/
def renderDelta (q : ℚ) (unit : String) : String :=
  (if (0 : ℚ) ≤ q then ("+") else ("")) ++ formatF0 q ++ unit

/-- Shared body of `_apply_intensity_to_rate` / `_pitch` / `_volume`:
reject the empty string and the one literal zero string, parse an optional
sign, strip the unit suffix if present, apply the multiplier, clamp to
`[lo, hi]`, and re-serialize. -/
def apply_intensity_core (zeroLit unit : List Char) (lo hi : ℚ)
    (cs : List Char) (multiplier : ℚ) : Option String :=
  if cs.isEmpty || cs == zeroLit then none
  else
    let sign : ℚ := if cs.head? == some '+' then 1 else -1
    let body := if cs.head? == some '+' || cs.head? == some '-' then
        cs.tail else cs
    let numPart := if body.drop (body.length - unit.length) == unit then
        body.take (body.length - unit.length) else body
    match pyFloat numPart with
    | none => none
    | some v =>
        let adjusted := v * multiplier * sign
        let clamped := max lo (min hi adjusted)
        some (renderDelta clamped (String.mk unit))

/-- `_apply_intensity_to_rate`: zero literal `"+0%"`, unit `%`,
bounds `[-50, 100]`. -/
def apply_intensity_to_rate (rate_str : String) (multiplier : ℚ) :
    Option String :=
  apply_intensity_core ['+', '0', '%'] ['%'] (-50) 100 rate_str.data multiplier

/-- `_apply_intensity_to_pitch`: zero literal `"+0Hz"`, unit `Hz`,
bounds `[-20, 50]`. -/
def apply_intensity_to_pitch (pitch_str : String) (multiplier : ℚ) :
    Option String :=
  apply_intensity_core ['+', '0', 'H', 'z'] ['H', 'z'] (-20) 50
    pitch_str.data multiplier

/-- `_apply_intensity_to_volume`: zero literal `"+0dB"`, unit `dB`,
bounds `[-10, 10]`. -/
def apply_intensity_to_volume (volume_str : String) (multiplier : ℚ) :
    Option String :=
  apply_intensity_core ['+', '0', 'd', 'B'] ['d', 'B'] (-10) 10
    volume_str.data multiplier

/-- The `parameters` sub-dict of one style entry (the keys
`get_prosody_params` reads; other keys such as `emphasis_strength` do not
affect its result). -/
structure StyleParams where
  rate : Option String := none
  pitch : Option String := none
  volume : Option String := none
deriving Repr, DecidableEq

/-- The loaded styles configuration: the `styles` table (name to
parameters) and the `intensity_levels` table (level to multiplier; the
level key is `str(intensity)` in the source, injective on ints, so the key
is modelled as the int itself). -/
structure StylesConfig where
  styles : List (String × StyleParams) := []
  intensity_levels : List (Int × ℚ) := []

/-- Engine-agnostic result of `get_prosody_params`
(a dict with at most the keys rate/pitch/volume). -/
structure ProsodyResult where
  rate : Option String := none
  pitch : Option String := none
  volume : Option String := none
deriving Repr, DecidableEq

/-- The per-field application step of `get_prosody_params`: each present
base delta is scaled, and the field is emitted only when the helper
returns a value (the helpers never return an empty string, so Python
truthiness of the result is `isSome`). -/
def apply_style (sp : StyleParams) (multiplier : ℚ) : ProsodyResult :=
  { rate := sp.rate.bind (fun r => apply_intensity_to_rate r multiplier),
    pitch := sp.pitch.bind (fun r => apply_intensity_to_pitch r multiplier),
    volume := sp.volume.bind (fun r => apply_intensity_to_volume r multiplier) }

/-- `intensity_levels.get(str(intensity), {}).get('multiplier', 1.0)`. -/
def lookup_multiplier (cfg : StylesConfig) (intensity : Int) : ℚ :=
  (((cfg.intensity_levels.find? (fun pr => pr.1 == intensity)).map
    Prod.snd)).getD 1

/-- `get_prosody_params(style, intensity)` (prosody.py lines 10-57),
parameterized by the loaded configuration.  `styles.get(style, {})
.get('parameters', {})` is the association-list lookup defaulting to the
empty parameter record, and `if not style_params: return {}` is the
all-fields-absent test. -/
def get_prosody_params (cfg : StylesConfig) (style : Option String)
    (intensity : Int) : ProsodyResult :=
  match style with
  | none => {}
  | some s =>
      if s == "" then {}
      else
        let sp := ((cfg.styles.find? (fun pr => pr.1 == s)).map Prod.snd).getD {}
        if sp.rate.isNone && sp.pitch.isNone && sp.volume.isNone then {}
        else apply_style sp (lookup_multiplier cfg intensity)

/-- The `intensity_levels` defaults (styles table fallback in
`prosody/config.py` `load_styles`): 1 maps to 0.3, 2 to 0.6, 3 to 1.0,
4 to 1.4, 5 to 2.0. -/
def defaultIntensityLevels : List (Int × ℚ) :=
  [(1, 3 / 10), (2, 6 / 10), (3, 1), (4, 14 / 10), (5, 2)]

/-! ## Converter facade (`tts/converter.py`) -/

/-- Truncation toward zero: Python `int(float)`. -/
def truncQ (q : ℚ) : Int := if 0 ≤ q then ⌊q⌋ else -⌊-q⌋

/-- `TextToSpeechConverter._convert_rate_to_wpm`: percentage rate string to
words per minute around a 200 wpm baseline; `None` when the string lacks
the `%` suffix or does not parse. -/
def convert_rate_to_wpm (rate_str : String) : Option Int :=
  let sign : ℚ := if rate_str.data.head? == some '+' then 1 else -1
  let body := if rate_str.data.head? == some '+' ||
      rate_str.data.head? == some '-' then rate_str.data.tail
    else rate_str.data
  if body.getLast? == some '%' then
    match pyFloat body.dropLast with
    | none => none
    | some v =>
        let rate_percent := v * sign
        some (truncQ (200 * (1 + rate_percent / 100)))
  else none

/-- `volume_str[:-2].lstrip('+')` then `float(...)`:
the dB magnitude parsed by `_convert_volume_to_float`
(`lstrip` drops every leading `+`). -/
def parseDb (volume_str : String) : Option ℚ :=
  if volume_str.data.drop (volume_str.data.length - 2) == ['d', 'B'] then
    let body := volume_str.data.take (volume_str.data.length - 2)
    pyFloat (body.dropWhile (fun c => c == '+'))
  else none

/-- `TextToSpeechConverter._convert_volume_to_float`, parameterized by
`fpow10`, the floating-point evaluation of `10 ** x` (the one
transcendental operation in the source; every result it can actually
produce is a dyadic rational).  The idealized real-number formula is stated
separately as `dbToLinearIdeal`. -/
def convert_volume_to_float (fpow10 : ℚ → ℚ) (volume_str : String) :
    Option ℚ :=
  (parseDb volume_str).map (fun d =>
    max 0 (min 1 ((1 / 2) * fpow10 (d / 20))))

/-- The exact-real reading of the volume formula
`0.5 * 10 ** (dB / 20)` clamped to `[0, 1]`. -/
noncomputable def dbToLinearIdeal (d : ℚ) : ℝ :=
  max 0 (min 1 ((1 / 2) * (10 : ℝ) ^ ((d : ℝ) / 20)))

/-- `TextToSpeechConverter._convert_prosody_to_engine_params`
(converter.py lines 123-158): writes prosody-derived values into the
backend-native fields of `self.params`, guarded by the source's truthiness
tests (`not self.params.rate`, `self.params.slow is None`,
`not self.params.rate_int`, `not self.params.volume`).  Returns the mutated
params (the `converted` dict the source also returns is only logged). -/
def convert_prosody_to_engine_params (fpow10 : ℚ → ℚ) (engine_name : String)
    (p : ConversionParams) (std : ProsodyResult) : ConversionParams :=
  if engine_name == "edge_tts" then
    let p1 := match std.rate with
      | some r => if !pyTruthyStr p.rate then { p with rate := some r } else p
      | none => p
    match std.pitch with
    | some pi => if !pyTruthyStr p1.pitch then { p1 with pitch := some pi }
        else p1
    | none => p1
  else if engine_name == "gtts" then
    match std.rate with
    | some r =>
        if p.slow.isNone && r.data.head? == some '-' then
          { p with slow := some true }
        else p
    | none => p
  else if engine_name == "pyttsx3" then
    let p1 := match std.rate with
      | some r =>
          if !pyTruthyInt p.rate_int then
            match convert_rate_to_wpm r with
            | some wpm => if wpm != 0 then { p with rate_int := some wpm }
                else p
            | none => p
          else p
      | none => p
    match std.volume with
    | some v =>
        if !pyTruthyQ p1.volume then
          match convert_volume_to_float fpow10 v with
          | some vol => { p1 with volume := some vol }
          | none => p1
        else p1
    | none => p1
  else p

/-- `TextToSpeechConverter.validate_request` (converter.py lines 196-227):
engine available, parameters valid, and - only when an explicit voice is
given - the voice present in the engine's live listing. -/
def validate_request (engines : List (String × Engine)) (engine_name : String)
    (p : ConversionParams) (voices : List VoiceDict) : Bool × String :=
  let available := list_available_engines engines
  if !available.contains engine_name then
    (false, "Engine " ++ apos ++ engine_name ++ apos ++
      " not available. Available engines: " ++ renderStrList available ++
      ". All registered engines: " ++
      renderStrList (engines.map Prod.fst))
  else
    match engines.find? (fun pr => pr.1 == engine_name) with
    | none => (true, "")
    | some (_, eng) =>
        let v := eng.validate p
        if !v.1 then
          (false, "Parameter validation failed for " ++ engine_name ++
            ": " ++ v.2)
        else if pyTruthyStr p.voice then
          validate_voice_for_engine engines engine_name (p.voice.getD (""))
            voices
        else (true, "")

/-! ## EdgeTTS conversion call (`engines/implementations/cloud/edge_tts.py`) -/

/-- Whitespace characters stripped by Python `str.strip()` (ASCII range). -/
def pyIsSpace (c : Char) : Bool :=
  c == ' ' || c == '\t' || c == '\n' || c == '\r' ||
  c == Char.ofNat 11 || c == Char.ofNat 12

/-- Python `str.strip()` (both ends). -/
def pyStrip (s : String) : String :=
  String.mk (((s.data.dropWhile pyIsSpace).reverse.dropWhile pyIsSpace).reverse)

/-- Python `str.lstrip()` (leading whitespace only). -/
def pyLstrip (s : String) : String :=
  String.mk (s.data.dropWhile pyIsSpace)

/-- The embedded `LANGUAGE_VOICE_MAPPING` table of `EdgeTTSEngine`. -/
def edge_language_voice_mapping : List (String × List String) :=
  [("en", ["en-US-JennyNeural", "en-US-AriaNeural"]),
   ("en-us", ["en-US-JennyNeural", "en-US-AriaNeural"]),
   ("fr", ["fr-FR-DeniseNeural", "fr-FR-EliseNeural"]),
   ("de", ["de-DE-KatjaNeural", "de-DE-ConradNeural"]),
   ("es", ["es-ES-ElviraNeural", "es-ES-AlvaroNeural"]),
   ("it", ["it-IT-ElsaNeural", "it-IT-DiegoNeural"]),
   ("pt", ["pt-BR-FranciscaNeural", "pt-BR-AntonioNeural"]),
   ("zh", ["zh-CN-XiaoxiaoNeural", "zh-CN-YunyangNeural"]),
   ("ja", ["ja-JP-NanamiNeural", "ja-JP-KeitaNeural"]),
   ("ko", ["ko-KR-SunHiNeural", "ko-KR-InJoonNeural"])]

/-- `EdgeTTSEngine.get_voice_for_language`: exact tag, then base language,
intersected with the live voice cache (matching the cache's `Name` fields
case-insensitively) when the cache is nonempty. -/
def edge_get_voice_for_language (language_code : String)
    (available_voices : List VoiceDict) : Option String :=
  let lc := pyLower language_code
  let preferred? : Option (List String) :=
    match edge_language_voice_mapping.find?
        (fun pr : String × List String => pr.1 == lc) with
    | some pr => some pr.2
    | none =>
        match edge_language_voice_mapping.find?
            (fun pr : String × List String => pr.1 == baseLang lc) with
        | some pr => some pr.2
        | none => none
  match preferred? with
  | none => none
  | some preferred =>
      if !available_voices.isEmpty then
        let names := available_voices.map
          (fun v => pyLower (v.nameCap.getD ("")))
        preferred.find? (fun v => names.contains (pyLower v))
      else preferred.head?

/-- The constructor defaults of `EdgeTTSEngine` that
`_perform_conversion` falls back to, plus the live voice cache. -/
structure EdgeEngineCfg where
  voice : String := "en-US-JennyNeural"
  rate : String := "+0%"
  pitch : String := "+0Hz"
  voices_cache : List VoiceDict := []

/-- `EdgeTTSEngine._determine_voice`. -/
def edge_determine_voice (eng : EdgeEngineCfg) (voice_override : Option String)
    (language : Option String) : String :=
  if pyTruthyStr voice_override then voice_override.getD ("")
  else if pyTruthyStr language then
    match edge_get_voice_for_language (language.getD ("")) eng.voices_cache with
    | some v => if v == "" then eng.voice else v
    | none => eng.voice
  else eng.voice

/-- The argument tuple of the `edge_tts.Communicate(...)` construction. -/
structure EdgeCommunicateCall where
  text : String
  voice : String
  rate : String
  pitch : String
deriving Repr, DecidableEq

/-- `EdgeTTSEngine._perform_conversion` (edge_tts.py lines 142-177) up to
the external library call: computes the exact arguments handed to
`edge_tts.Communicate`.  `is_ssml = text.strip().startswith('<speak')`. -/
def edge_perform_conversion (eng : EdgeEngineCfg) (text : String)
    (p : ConversionParams) : EdgeCommunicateCall :=
  let selected_voice := edge_determine_voice eng p.voice p.language
  let selected_rate := if pyTruthyStr p.rate then p.rate.getD ("") else eng.rate
  let selected_pitch := if pyTruthyStr p.pitch then p.pitch.getD ("")
    else eng.pitch
  let is_ssml := List.isPrefixOf (("<speak").data) (pyStrip text).data
  { text := text,
    voice := selected_voice,
    rate := if is_ssml then ("+0%") else selected_rate,
    pitch := if is_ssml then ("+0Hz") else selected_pitch }

/-- Concrete style tables used by witnesses and counterexamples. -/
def c4cfgCx : StylesConfig :=
  ⟨[(("s" : String), ⟨some ("+00%"), none, none⟩)], defaultIntensityLevels⟩

def c4cfg1 : StylesConfig :=
  ⟨[(("x" : String), ⟨some ("+10%"), none, none⟩)], defaultIntensityLevels⟩

def c4spZ : StyleParams := ⟨some ("+0%"), some ("+0Hz"), some ("+0dB")⟩

def c4cfgZ : StylesConfig := ⟨[(("z" : String), c4spZ)], defaultIntensityLevels⟩

def c4cfg3 : StylesConfig :=
  ⟨[(("w" : String), ⟨some ("+80%"), none, none⟩)], defaultIntensityLevels⟩

/-! ## Helper lemmas -/

/-- A keyed in-place update commutes with association-list lookup. -/
theorem find?_map_keyed (l : List (String × Engine)) (n : String)
    (f : Engine → Engine) :
    (l.map (fun pr => if pr.1 == n then (pr.1, f pr.2) else pr)).find?
        (fun pr => pr.1 == n) =
      (l.find? (fun pr => pr.1 == n)).map (fun pr => (pr.1, f pr.2)) := by
  induction l with
  | nil => simp
  | cons hd tl ih =>
      by_cases h : (hd.1 == n) = true
      · rw [List.map_cons, if_pos h,
          @List.find?_cons_of_pos _ (fun pr => pr.1 == n) (hd.1, f hd.2)
            (tl.map (fun pr => if pr.1 == n then (pr.1, f pr.2) else pr))
            (by simpa using h),
          @List.find?_cons_of_pos _ (fun pr => pr.1 == n) hd tl h]
        rfl
      · rw [List.map_cons, if_neg h,
          @List.find?_cons_of_neg _ (fun pr => pr.1 == n) hd
            (tl.map (fun pr => if pr.1 == n then (pr.1, f pr.2) else pr)) h,
          @List.find?_cons_of_neg _ (fun pr => pr.1 == n) hd tl h, ih]

/-- Characterization of the `^[+-]\d+U$` matcher: it accepts exactly the
strings made of a sign, a nonempty digit run, and the unit suffix. -/
theorem matchSignedDigitsUnit_iff (s : String) (u : List Char) :
    matchSignedDigitsUnit s u = true ↔
      ∃ sc ds, (sc = '+' ∨ sc = '-') ∧ ds ≠ [] ∧ allDigits ds = true ∧
        s.data = sc :: (ds ++ u) := by
  unfold matchSignedDigitsUnit
  cases hd : s.data with
  | nil =>
      constructor
      · intro h; simp at h
      · rintro ⟨sc, ds, _, _, _, habs⟩
        exact absurd habs (by simp)
  | cons c cs =>
      constructor
      · intro h
        simp only [Bool.and_eq_true, Bool.or_eq_true, beq_iff_eq] at h
        obtain ⟨hc, ⟨htl, hne⟩, hdig⟩ := h
        refine ⟨c, cs.take (cs.length - u.length), hc, ?_, hdig, ?_⟩
        · intro habs
          rw [habs] at hne; simp at hne
        · congr 1
          conv_lhs => rw [← List.take_append_drop (cs.length - u.length) cs]
          rw [htl]
      · rintro ⟨sc, ds, hc, hne, hdig, hdata⟩
        injection hdata with h1 h2
        subst h1; subst h2
        have hu1 : (ds ++ u).take ((ds ++ u).length - u.length) = ds := by
          simp [List.length_append, List.take_left]
        have hu2 : (ds ++ u).drop ((ds ++ u).length - u.length) = u := by
          simp [List.length_append, List.drop_left]
        simp only [hu1, hu2, Bool.and_eq_true, Bool.or_eq_true, beq_iff_eq]
        refine ⟨hc, ⟨trivial, ?_⟩, hdig⟩
        cases ds with
        | nil => exact absurd rfl hne
        | cons d ds' => simp

/-! ## Claim theorems -/

/-- C2: every validation failure of `convert_with_engine` — unknown backend
name, backend not available, parameter rejection — is detected and returned
before the backend's convert operation is invoked (`convert_called = false`,
hence no output file); an unknown name yields a message listing the
registered names, and an unavailable backend yields a message carrying its
stored last error. -/
theorem claim_c2_fail_fast (engines : List (String × Engine))
    (engine_name : String) (params : ConversionParams)
    (outcome : ConvertOutcome) (output_exists : Bool) :
    (engines.find? (fun pr => pr.1 == engine_name) = none →
      (convert_with_engine engines engine_name params outcome
        output_exists).convert_called = false ∧
      (convert_with_engine engines engine_name params outcome
        output_exists).success = false ∧
      (convert_with_engine engines engine_name params outcome
        output_exists).message =
        "Engine " ++ apos ++ engine_name ++ apos ++
          " not found. Available engines: " ++
          renderStrList (engines.map Prod.fst)) ∧
    (∀ nm eng, engines.find? (fun pr => pr.1 == engine_name) = some (nm, eng) →
      eng.st.is_available = false →
      (convert_with_engine engines engine_name params outcome
        output_exists).convert_called = false ∧
      (convert_with_engine engines engine_name params outcome
        output_exists).success = false ∧
      (convert_with_engine engines engine_name params outcome
        output_exists).message =
        "Engine " ++ apos ++ engine_name ++ apos ++
          " is not available. Last error: " ++ eng.st.last_error) ∧
    (∀ nm eng, engines.find? (fun pr => pr.1 == engine_name) = some (nm, eng) →
      eng.st.is_available = true → (eng.validate params).1 = false →
      (convert_with_engine engines engine_name params outcome
        output_exists).convert_called = false ∧
      (convert_with_engine engines engine_name params outcome
        output_exists).success = false ∧
      (convert_with_engine engines engine_name params outcome
        output_exists).message =
        "Invalid parameters for " ++ engine_name ++ ": " ++
          (eng.validate params).2) := by
  refine ⟨fun h => ?_, fun nm eng h ha => ?_, fun nm eng h ha hv => ?_⟩
  · simp [convert_with_engine, h]
  · simp [convert_with_engine, h, ha]
  · simp [convert_with_engine, h, ha, hv]

/-- C2 witness: concrete instances of all three fail-fast branches. -/
theorem claim_c2_fail_fast_witness :
    ((convert_with_engine [] ("nope") {} (ConvertOutcome.ok true)
        true).convert_called = false ∧
     (convert_with_engine [] ("nope") {} (ConvertOutcome.ok true)
        true).message =
       "Engine " ++ apos ++ "nope" ++ apos ++
         " not found. Available engines: " ++ renderStrList []) ∧
    (convert_with_engine
      [(("g" : String), ⟨⟨false, "boom", 0⟩, fun _ => (true, "")⟩)]
      ("g") {} (ConvertOutcome.ok true) true).message =
      "Engine " ++ apos ++ "g" ++ apos ++
        " is not available. Last error: " ++ "boom" ∧
    (convert_with_engine
      [(("g" : String), ⟨⟨true, "", 0⟩, fun _ => (false, "why")⟩)]
      ("g") {} (ConvertOutcome.ok true) true).convert_called = false := by
  refine ⟨⟨?_, ?_⟩, ?_, ?_⟩
  · exact ((claim_c2_fail_fast [] ("nope") {} (ConvertOutcome.ok true)
      true).1 rfl).1
  · exact (((claim_c2_fail_fast [] ("nope") {} (ConvertOutcome.ok true)
      true).1 rfl).2.2).trans (by rfl)
  · exact (((claim_c2_fail_fast
      [(("g" : String), ⟨⟨false, "boom", 0⟩, fun _ => (true, "")⟩)]
      ("g") {} (ConvertOutcome.ok true) true).2.1 ("g")
      ⟨⟨false, "boom", 0⟩, fun _ => (true, "")⟩ rfl rfl).2.2)
  · exact (((claim_c2_fail_fast
      [(("g" : String), ⟨⟨true, "", 0⟩, fun _ => (false, "why")⟩)]
      ("g") {} (ConvertOutcome.ok true) true).2.2 ("g")
      ⟨⟨true, "", 0⟩, fun _ => (false, "why")⟩ rfl rfl rfl).1)

/-- C3: once the pre-checks pass, `convert_with_engine` succeeds iff the
backend's convert call returned `true` and the output path exists afterward
(engine state untouched); if the convert call raises, the manager
increments that backend's error counter, stores the exception message as
its last error, and returns failure. -/
theorem claim_c3_convert_outcome (engines : List (String × Engine))
    (engine_name : String) (params : ConversionParams) (output_exists : Bool)
    (nm : String) (eng : Engine)
    (hf : engines.find? (fun pr => pr.1 == engine_name) = some (nm, eng))
    (ha : eng.st.is_available = true)
    (hv : (eng.validate params).1 = true) :
    (∀ b, (convert_with_engine engines engine_name params
        (ConvertOutcome.ok b) output_exists).success = (b && output_exists) ∧
      (convert_with_engine engines engine_name params
        (ConvertOutcome.ok b) output_exists).convert_called = true ∧
      (convert_with_engine engines engine_name params
        (ConvertOutcome.ok b) output_exists).engines = engines) ∧
    (∀ m, (convert_with_engine engines engine_name params
        (ConvertOutcome.exn m) output_exists).success = false ∧
      (convert_with_engine engines engine_name params
        (ConvertOutcome.exn m) output_exists).convert_called = true ∧
      (convert_with_engine engines engine_name params
        (ConvertOutcome.exn m) output_exists).engines.find?
          (fun pr => pr.1 == engine_name) =
        some (nm, { eng with st := { eng.st with
          error_count := eng.st.error_count + 1, last_error := m } })) := by
  constructor
  · intro b
    refine ⟨?_, ?_, ?_⟩ <;>
      · simp only [convert_with_engine, hf, ha, hv, Bool.not_true,
          Bool.false_eq_true, if_false]
        cases hb : (b && output_exists) <;> simp [hb]
  · intro m
    refine ⟨?_, ?_, ?_⟩ <;>
      simp only [convert_with_engine, hf, ha, hv, Bool.not_true,
        Bool.false_eq_true, if_false]
    exact (find?_map_keyed engines engine_name
      (fun e => { e with st := { e.st with
        error_count := e.st.error_count + 1, last_error := m } })).trans
      (by rw [hf]; simp [ha])

/-- C3 witness: a convert call returning `true` with the file present
succeeds; a raising convert call bumps the error counter and stores the
message. -/
theorem claim_c3_convert_outcome_witness :
    (convert_with_engine
      [(("g" : String), ⟨⟨true, "", 0⟩, fun _ => (true, "")⟩)]
      ("g") {} (ConvertOutcome.ok true) true).success = (true && true) ∧
    (convert_with_engine
      [(("g" : String), ⟨⟨true, "", 0⟩, fun _ => (true, "")⟩)]
      ("g") {} (ConvertOutcome.exn ("kaput")) true).engines.find?
        (fun pr => pr.1 == ("g" : String)) =
      some (("g" : String),
        { st := ⟨true, "kaput", 1⟩, validate := fun _ => (true, "") }) := by
  have h := claim_c3_convert_outcome
    [(("g" : String), ⟨⟨true, "", 0⟩, fun _ => (true, "")⟩)]
    ("g") {} true ("g") ⟨⟨true, "", 0⟩, fun _ => (true, "")⟩ rfl rfl rfl
  exact ⟨(h.1 true).1, ((h.2 ("kaput")).2.2).trans rfl⟩

/-- C1: each backend's `validate_params` rejects whenever any field of its
unsupported set is populated (non-None), with the complaint list naming
every populated unsupported field (each listed entry spelled as in the
source, beginning with the field name), and accepts when only supported,
well-formed fields are populated: EdgeTTS rejects rate_int/volume/slow,
gTTS rejects voice/rate/rate_int/pitch/volume, pyttsx3 rejects
language/rate/pitch/slow. -/
theorem claim_c1_per_backend_validation (p : ConversionParams) :
    ((p.rate_int.isSome ∨ p.volume.isSome ∨ p.slow.isSome) →
      (edge_validate_params p).1 = false ∧
      (edge_validate_params p).2 = "EdgeTTS doesn" ++ apos ++ "t support: " ++
        String.intercalate (", ") (edge_unsupported p)) ∧
    (p.rate_int.isSome →
      ("rate_int (use " ++ apos ++ "rate" ++ apos ++
        " with percentage format like " ++ apos ++ "+25%" ++ apos ++ ")") ∈
        edge_unsupported p) ∧
    (p.volume.isSome → ("volume" : String) ∈ edge_unsupported p) ∧
    (p.slow.isSome → ("slow" : String) ∈ edge_unsupported p) ∧
    (p.rate_int = none → p.volume = none → p.slow = none →
      (∀ s, p.rate = some s → is_valid_rate_format s = true) →
      (∀ s, p.pitch = some s → is_valid_pitch_format s = true) →
      edge_validate_params p = (true, "")) ∧
    ((p.voice.isSome ∨ p.rate.isSome ∨ p.rate_int.isSome ∨ p.pitch.isSome ∨
        p.volume.isSome) →
      (gtts_validate_params p).1 = false ∧
      (gtts_validate_params p).2 = "gTTS doesn" ++ apos ++ "t support: " ++
        String.intercalate (", ") (gtts_unsupported p) ++
        ". Only supports " ++ apos ++ "language" ++ apos ++ " and " ++
        apos ++ "slow" ++ apos ++ " parameters.") ∧
    (p.voice.isSome →
      ("voice (gTTS uses language-based synthesis)" : String) ∈
        gtts_unsupported p) ∧
    (p.rate.isSome → ("rate" : String) ∈ gtts_unsupported p) ∧
    (p.rate_int.isSome → ("rate_int" : String) ∈ gtts_unsupported p) ∧
    (p.pitch.isSome → ("pitch" : String) ∈ gtts_unsupported p) ∧
    (p.volume.isSome → ("volume" : String) ∈ gtts_unsupported p) ∧
    (p.voice = none → p.rate = none → p.rate_int = none → p.pitch = none →
      p.volume = none →
      (∀ s, p.language = some s → gtts_is_valid_language s = true) →
      gtts_validate_params p = (true, "")) ∧
    ((p.language.isSome ∨ p.rate.isSome ∨ p.pitch.isSome ∨ p.slow.isSome) →
      (pyttsx3_validate_params p).1 = false ∧
      (pyttsx3_validate_params p).2 = "pyttsx3 doesn" ++ apos ++
        "t support: " ++
        String.intercalate (", ") (pyttsx3_unsupported p) ++ ". Supports " ++
        apos ++ "voice" ++ apos ++ ", " ++ apos ++ "rate_int" ++ apos ++
        ", and " ++ apos ++ "volume" ++ apos ++ ".") ∧
    (p.language.isSome →
      ("language (use specific voice IDs instead)" : String) ∈
        pyttsx3_unsupported p) ∧
    (p.rate.isSome →
      ("rate (use " ++ apos ++ "rate_int" ++ apos ++ " for pyttsx3)") ∈
        pyttsx3_unsupported p) ∧
    (p.pitch.isSome → ("pitch" : String) ∈ pyttsx3_unsupported p) ∧
    (p.slow.isSome → ("slow" : String) ∈ pyttsx3_unsupported p) ∧
    (p.language = none → p.rate = none → p.pitch = none → p.slow = none →
      (∀ v, p.volume = some v → (0 : ℚ) ≤ v ∧ v ≤ 1) →
      (∀ n, p.rate_int = some n → (1 : Int) ≤ n ∧ n ≤ 1000) →
      pyttsx3_validate_params p = (true, "")) := by
  refine ⟨fun hOr => ?_, fun h => ?_, fun h => ?_, fun h => ?_,
    fun h1 h2 h3 h4 h5 => ?_, fun hOr => ?_, fun h => ?_, fun h => ?_,
    fun h => ?_, fun h => ?_, fun h => ?_, fun h1 h2 h3 h4 h5 h6 => ?_,
    fun hOr => ?_, fun h => ?_, fun h => ?_, fun h => ?_, fun h => ?_,
    fun h1 h2 h3 h4 hvol hri => ?_⟩
  · have hne : edge_unsupported p ≠ [] := by
      rcases hOr with h | h | h <;> simp [edge_unsupported, h]
    rcases hl : edge_unsupported p with _ | ⟨a, l⟩
    · exact absurd hl hne
    · constructor <;> simp [edge_validate_params, hl]
  · unfold edge_unsupported
    rw [if_pos h]
    exact List.mem_append_left _ (List.mem_append_left _
      (List.mem_singleton_self _))
  · unfold edge_unsupported
    rw [if_pos h]
    exact List.mem_append_left _ (List.mem_append_right _
      (List.mem_singleton_self _))
  · unfold edge_unsupported
    rw [if_pos h]
    exact List.mem_append_right _ (List.mem_singleton_self _)
  · have hu : edge_unsupported p = [] := by
      simp [edge_unsupported, h1, h2, h3]
    have hcr : (pyTruthyStr p.rate &&
        !is_valid_rate_format (p.rate.getD (""))) = false := by
      cases hr : p.rate with
      | none => rfl
      | some s => simp [pyTruthyStr, h4 s hr]
    have hcp : (pyTruthyStr p.pitch &&
        !is_valid_pitch_format (p.pitch.getD (""))) = false := by
      cases hr : p.pitch with
      | none => rfl
      | some s => simp [pyTruthyStr, h5 s hr]
    simp [edge_validate_params, hu, hcr, hcp]
  · have hne : gtts_unsupported p ≠ [] := by
      rcases hOr with h | h | h | h | h <;> simp [gtts_unsupported, h]
    rcases hl : gtts_unsupported p with _ | ⟨a, l⟩
    · exact absurd hl hne
    · constructor <;> simp [gtts_validate_params, hl]
  · unfold gtts_unsupported
    rw [if_pos h]
    exact List.mem_append_left _ (List.mem_append_left _
      (List.mem_append_left _ (List.mem_append_left _
        (List.mem_singleton_self _))))
  · unfold gtts_unsupported
    rw [if_pos h]
    exact List.mem_append_left _ (List.mem_append_left _
      (List.mem_append_left _ (List.mem_append_right _
        (List.mem_singleton_self _))))
  · unfold gtts_unsupported
    rw [if_pos h]
    exact List.mem_append_left _ (List.mem_append_left _
      (List.mem_append_right _ (List.mem_singleton_self _)))
  · unfold gtts_unsupported
    rw [if_pos h]
    exact List.mem_append_left _ (List.mem_append_right _
      (List.mem_singleton_self _))
  · unfold gtts_unsupported
    rw [if_pos h]
    exact List.mem_append_right _ (List.mem_singleton_self _)
  · have hu : gtts_unsupported p = [] := by
      simp [gtts_unsupported, h1, h2, h3, h4, h5]
    have hcl : (pyTruthyStr p.language &&
        !gtts_is_valid_language (p.language.getD (""))) = false := by
      cases hr : p.language with
      | none => rfl
      | some s => simp [pyTruthyStr, h6 s hr]
    simp [gtts_validate_params, hu, hcl]
  · have hne : pyttsx3_unsupported p ≠ [] := by
      rcases hOr with h | h | h | h <;> simp [pyttsx3_unsupported, h]
    rcases hl : pyttsx3_unsupported p with _ | ⟨a, l⟩
    · exact absurd hl hne
    · constructor <;> simp [pyttsx3_validate_params, hl]
  · unfold pyttsx3_unsupported
    rw [if_pos h]
    exact List.mem_append_left _ (List.mem_append_left _
      (List.mem_append_left _ (List.mem_singleton_self _)))
  · unfold pyttsx3_unsupported
    rw [if_pos h]
    exact List.mem_append_left _ (List.mem_append_left _
      (List.mem_append_right _ (List.mem_singleton_self _)))
  · unfold pyttsx3_unsupported
    rw [if_pos h]
    exact List.mem_append_left _ (List.mem_append_right _
      (List.mem_singleton_self _))
  · unfold pyttsx3_unsupported
    rw [if_pos h]
    exact List.mem_append_right _ (List.mem_singleton_self _)
  · have hu : pyttsx3_unsupported p = [] := by
      simp [pyttsx3_unsupported, h1, h2, h3, h4]
    have hcv : (p.volume.isSome && !(decide ((0 : ℚ) ≤ p.volume.getD 0) &&
        decide (p.volume.getD 0 ≤ (1 : ℚ)))) = false := by
      cases hv : p.volume with
      | none => rfl
      | some v =>
          simp [decide_eq_true (hvol v hv).1, decide_eq_true (hvol v hv).2]
    have hcr : (p.rate_int.isSome && !(decide ((1 : Int) ≤ p.rate_int.getD 0)
        && decide (p.rate_int.getD 0 ≤ (1000 : Int)))) = false := by
      cases hv : p.rate_int with
      | none => rfl
      | some n =>
          simp [decide_eq_true (hri n hv).1, decide_eq_true (hri n hv).2]
    simp only [pyttsx3_validate_params]
    rw [hu, hcv, hcr]
    rfl

/-- C1 witness: concrete rejections (including the spec's own scenarios:
gTTS with an explicit voice, pyttsx3 with `rate_int=9999` rejected
elsewhere) and concrete acceptances for each backend. -/
theorem claim_c1_per_backend_validation_witness :
    (edge_validate_params { rate_int := some 5 }).1 = false ∧
    edge_validate_params
      { voice := some ("v"), rate := some ("+50%"),
        pitch := some ("+10Hz") } = (true, "") ∧
    (gtts_validate_params { voice := some ("SomeVoice") }).1 = false ∧
    ("voice (gTTS uses language-based synthesis)" : String) ∈
      gtts_unsupported { voice := some ("SomeVoice") } ∧
    gtts_validate_params { language := some ("en"), slow := some true } =
      (true, "") ∧
    (pyttsx3_validate_params { language := some ("en") }).1 = false ∧
    pyttsx3_validate_params
      { voice := some ("Albert"),
        rate_int := some 200, volume := some (1 / 2) } = (true, "") := by
  refine ⟨?_, ?_, ?_, ?_, ?_, ?_, ?_⟩
  · exact ((claim_c1_per_backend_validation
      { rate_int := some 5 }).1 (Or.inl rfl)).1
  · exact (claim_c1_per_backend_validation
      { voice := some ("v"), rate := some ("+50%"),
        pitch := some ("+10Hz") }).2.2.2.2.1 rfl rfl rfl
      (fun s hs => by cases hs; decide) (fun s hs => by cases hs; decide)
  · exact ((claim_c1_per_backend_validation
      { voice := some ("SomeVoice") }).2.2.2.2.2.1 (Or.inl rfl)).1
  · exact (claim_c1_per_backend_validation
      { voice := some ("SomeVoice") }).2.2.2.2.2.2.1 rfl
  · exact (claim_c1_per_backend_validation
      { language := some ("en"), slow := some true
        }).2.2.2.2.2.2.2.2.2.2.2.1 rfl rfl rfl rfl rfl
      (fun s hs => by cases hs; decide)
  · exact ((claim_c1_per_backend_validation
      { language := some ("en") }).2.2.2.2.2.2.2.2.2.2.2.2.1 (Or.inl rfl)).1
  · exact (claim_c1_per_backend_validation
      { voice := some ("Albert"), rate_int := some 200,
        volume := some (1 / 2) }).2.2.2.2.2.2.2.2.2.2.2.2.2.2.2.2.2 rfl rfl
      rfl rfl (fun v hv => by cases hv; constructor <;> norm_num)
      (fun n hn => by cases hn; constructor <;> norm_num)

/-- C5: the backend-specific format validators accept exactly the specified
shapes: EdgeTTS accepts a populated (non-empty) rate string iff it matches
`^[+-]\\d+%$` and a populated pitch string iff it matches `^[+-]\\d+Hz$`
(so "+50%" and "-25%" pass, "50%" and "+50" fail); pyttsx3 accepts a
populated volume iff it lies in [0.0, 1.0] and a populated rate_int iff it
lies in [1, 1000]. -/
theorem claim_c5_format_validators :
    (∀ s : String, s ≠ "" →
      ((edge_validate_params { rate := some s }).1 = true ↔
        ∃ sc ds, (sc = '+' ∨ sc = '-') ∧ ds ≠ [] ∧ allDigits ds = true ∧
          s.data = sc :: (ds ++ ['%']))) ∧
    (∀ s : String, s ≠ "" →
      ((edge_validate_params { pitch := some s }).1 = true ↔
        ∃ sc ds, (sc = '+' ∨ sc = '-') ∧ ds ≠ [] ∧ allDigits ds = true ∧
          s.data = sc :: (ds ++ ['H', 'z']))) ∧
    is_valid_rate_format ("+50%") = true ∧
    is_valid_rate_format ("-25%") = true ∧
    is_valid_rate_format ("50%") = false ∧
    is_valid_rate_format ("+50") = false ∧
    (∀ v : ℚ, (pyttsx3_validate_params { volume := some v }).1 = true ↔
      ((0 : ℚ) ≤ v ∧ v ≤ 1)) ∧
    (∀ n : Int, (pyttsx3_validate_params { rate_int := some n }).1 = true ↔
      ((1 : Int) ≤ n ∧ n ≤ 1000)) := by
  refine ⟨fun s hs => ?_, fun s hs => ?_, by decide, by decide, by decide,
    by decide, fun v => ?_, fun n => ?_⟩
  · have hne : s.data ≠ [] := fun hdn => hs (String.ext hdn)
    have hemp : s.data.isEmpty = false := by
      cases hd : s.data with
      | nil => exact absurd hd hne
      | cons c cs => rfl
    rw [← matchSignedDigitsUnit_iff s ['%']]
    cases hv : is_valid_rate_format s with
    | true =>
        simp only [edge_validate_params, edge_unsupported, pyTruthyStr]
        simp [hemp, hv]
        exact hv
    | false =>
        simp only [edge_validate_params, edge_unsupported, pyTruthyStr]
        simp [hemp, hv]
        exact hv
  · have hne : s.data ≠ [] := fun hdn => hs (String.ext hdn)
    have hemp : s.data.isEmpty = false := by
      cases hd : s.data with
      | nil => exact absurd hd hne
      | cons c cs => rfl
    rw [← matchSignedDigitsUnit_iff s ['H', 'z']]
    cases hv : is_valid_pitch_format s with
    | true =>
        simp only [edge_validate_params, edge_unsupported, pyTruthyStr]
        simp [hemp, hv]
        exact hv
    | false =>
        simp only [edge_validate_params, edge_unsupported, pyTruthyStr]
        simp [hemp, hv]
        exact hv
  · constructor
    · intro h
      by_contra hc
      rw [Decidable.not_and_iff_or_not] at hc
      rcases hc with hc | hc
      · simp [pyttsx3_validate_params, pyttsx3_unsupported,
          decide_eq_false hc] at h
      · simp [pyttsx3_validate_params, pyttsx3_unsupported,
          decide_eq_false hc] at h
    · rintro ⟨h1, h2⟩
      simp [pyttsx3_validate_params, pyttsx3_unsupported,
        decide_eq_true h1, decide_eq_true h2]
  · constructor
    · intro h
      by_contra hc
      rw [Decidable.not_and_iff_or_not] at hc
      rcases hc with hc | hc
      · simp [pyttsx3_validate_params, pyttsx3_unsupported,
          decide_eq_false hc] at h
      · simp [pyttsx3_validate_params, pyttsx3_unsupported,
          decide_eq_false hc] at h
    · rintro ⟨h1, h2⟩
      simp [pyttsx3_validate_params, pyttsx3_unsupported,
        decide_eq_true h1, decide_eq_true h2]

/-- C5 witness: "+50%" accepted, volume 0.5 accepted, rate_int 9999
rejected. -/
theorem claim_c5_format_validators_witness :
    (edge_validate_params { rate := some ("+50%") }).1 = true ∧
    (pyttsx3_validate_params { volume := some (1 / 2) }).1 = true ∧
    (pyttsx3_validate_params { rate_int := some 9999 }).1 = false := by
  refine ⟨?_, ?_, ?_⟩
  · exact (claim_c5_format_validators.1 ("+50%") (by decide)).mpr
      ⟨'+', ['5', '0'], Or.inl rfl, by decide, by decide, by decide⟩
  · exact (claim_c5_format_validators.2.2.2.2.2.2.1 (1 / 2)).mpr
      ⟨by norm_num, by norm_num⟩
  · cases hb : (pyttsx3_validate_params { rate_int := some 9999 }).1 with
    | false => rfl
    | true =>
        exfalso
        have h9 := (claim_c5_format_validators.2.2.2.2.2.2.2 9999).mp hb
        norm_num at h9

/-- C10: `get_prosody_params` is total with graceful fallbacks: a `None` or
empty style yields the empty mapping, a style absent from the table yields
the empty mapping, and an intensity that is not a key of the multiplier
table behaves exactly as multiplier 1.0. -/
theorem claim_c10_total_with_fallbacks (cfg : StylesConfig) (i : Int) :
    get_prosody_params cfg none i = {} ∧
    get_prosody_params cfg (some ("")) i = {} ∧
    (∀ s : String, cfg.styles.find? (fun pr => pr.1 == s) = none →
      get_prosody_params cfg (some s) i = {}) ∧
    (∀ s : String, cfg.intensity_levels.find? (fun pr => pr.1 == i) = none →
      get_prosody_params cfg (some s) i =
        get_prosody_params
          { styles := cfg.styles, intensity_levels := [(i, 1)] } (some s) i) := by
  refine ⟨rfl, by simp [get_prosody_params], fun s hf => ?_, fun s hf => ?_⟩
  · simp [get_prosody_params, hf]
  · by_cases hs : s == ""
    · simp [get_prosody_params, hs]
    · have hone : List.find? (fun pr : Int × ℚ => pr.1 == i) [(i, 1)] =
          some (i, 1) := by simp
      simp only [get_prosody_params, hs, lookup_multiplier, hf,
        Bool.false_eq_true, if_false, hone]
      rfl

/-- C10 witness: a missing style and a missing intensity level on a concrete
table. -/
theorem claim_c10_total_with_fallbacks_witness :
    get_prosody_params
      { styles := [(("a" : String), { rate := some ("+10%") })],
        intensity_levels := [] } (some ("missing")) 7 = {} ∧
    get_prosody_params
      { styles := [(("a" : String), { rate := some ("+10%") })],
        intensity_levels := [] } (some ("a")) 7 =
      get_prosody_params
        { styles := [(("a" : String), { rate := some ("+10%") })],
          intensity_levels := [(7, 1)] } (some ("a")) 7 := by
  refine ⟨?_, ?_⟩
  · exact (claim_c10_total_with_fallbacks
      { styles := [(("a" : String), { rate := some ("+10%") })],
        intensity_levels := [] } 7).2.2.1 ("missing") rfl
  · exact (claim_c10_total_with_fallbacks
      { styles := [(("a" : String), { rate := some ("+10%") })],
        intensity_levels := [] } 7).2.2.2 ("a") rfl

theorem takeWhile_allDigits (ds : List Char) (h : allDigits ds = true) :
    ds.takeWhile Char.isDigit = ds := by
  induction ds with
  | nil => rfl
  | cons d ds' ih =>
      simp only [allDigits, Bool.and_eq_true] at h
      simp [List.takeWhile_cons, h.1, ih h.2]

theorem pyFloat_digits (ds : List Char) (hne : ds ≠ [])
    (hdig : allDigits ds = true) :
    pyFloat ds = some ((digitsToNat ds 0 : ℚ)) := by
  cases ds with
  | nil => exact absurd rfl hne
  | cons d ds' =>
      have hd : d.isDigit = true := by
        simp only [allDigits, Bool.and_eq_true] at hdig
        exact hdig.1
      have hplus : (d == '+') = false := by
        refine beq_eq_false_iff_ne.mpr (fun he => ?_)
        rw [he] at hd
        exact absurd hd (by decide)
      have hminus : (d == '-') = false := by
        refine beq_eq_false_iff_ne.mpr (fun he => ?_)
        rw [he] at hd
        exact absurd hd (by decide)
      rw [pyFloat]
      rw [hplus, hminus]
      simp only [Bool.false_eq_true, if_false]
      rw [pyFloatCore]
      rw [takeWhile_allDigits _ hdig]
      simp [List.drop_length]

theorem apply_intensity_core_signed (zeroLit unit : List Char)
    (lo hi m : ℚ) (sgn : Bool) (ds : List Char) (hne : ds ≠ [])
    (hdig : allDigits ds = true) :
    apply_intensity_core zeroLit unit lo hi
        ((if sgn then '+' else '-') :: (ds ++ unit)) m =
      if ((if sgn then '+' else '-') :: (ds ++ unit)) = zeroLit then none
      else some (renderDelta
        (max lo (min hi
          ((digitsToNat ds 0 : ℚ) * m * (if sgn then 1 else -1))))
        (String.mk unit)) := by
  unfold apply_intensity_core
  by_cases hz :
      (((if sgn then '+' else '-') :: (ds ++ unit)) = zeroLit)
  · simp [hz]
  · rw [if_neg hz]
    have hbz : ((((if sgn then '+' else '-') :: (ds ++ unit))) == zeroLit)
        = false := beq_eq_false_iff_ne.mpr hz
    simp only [List.isEmpty_cons, hbz, Bool.or_false, Bool.false_eq_true,
      if_false]
    have htake : (ds ++ unit).take ((ds ++ unit).length - unit.length) = ds := by
      simp [List.length_append, List.take_left]
    have hdrop : (ds ++ unit).drop ((ds ++ unit).length - unit.length) = unit := by
      simp [List.length_append, List.drop_left]
    cases sgn <;>
      simp [List.head?_cons, List.tail_cons, hdrop, htake,
        pyFloat_digits ds hne hdig]

theorem signed_eq_zero_lit_iff (sgn : Bool) (ds unit : List Char) :
    ((if sgn then '+' else '-') :: (ds ++ unit) = '+' :: '0' :: unit) ↔
      (sgn = true ∧ ds = ['0']) := by
  cases sgn with
  | true =>
      constructor
      · intro h
        injection h with h1 h2
        exact ⟨rfl, List.append_cancel_right
          (show ds ++ unit = ['0'] ++ unit from h2)⟩
      · rintro ⟨_, rfl⟩
        rfl
  | false =>
      constructor
      · intro h
        injection h with h1 h2
        exact absurd h1 (by decide)
      · rintro ⟨habs, _⟩
        exact absurd habs (by decide)

theorem get_prosody_params_apply (cfg : StylesConfig) (nm : String)
    (sp : StyleParams) (i : Int) (hnm : nm ≠ "")
    (hfind : (cfg.styles.find? (fun pr => pr.1 == nm)).map Prod.snd = some sp)
    (hsome : sp.rate.isSome ∨ sp.pitch.isSome ∨ sp.volume.isSome) :
    get_prosody_params cfg (some nm) i =
      apply_style sp (lookup_multiplier cfg i) := by
  have hbnm : (nm == "") = false := beq_eq_false_iff_ne.mpr hnm
  have hnotall : (sp.rate.isNone && sp.pitch.isNone && sp.volume.isNone)
      = false := by
    rcases hsome with h | h | h <;>
      · rw [Option.isSome_iff_exists] at h
        obtain ⟨v, hv⟩ := h
        simp [hv]
  simp only [get_prosody_params, hbnm, Bool.false_eq_true, if_false, hfind,
    Option.getD_some, hnotall]

/-- C4 (amended): for a style in the table with the default multiplier
table (1 maps to 0.3, 2 to 0.6, 3 to 1.0, 4 to 1.4, 5 to 2.0), each
well-formed signed base delta sign-digits-unit is scaled by the intensity
multiplier, clamped to the per-unit bounds ([-50,100]% / [-20,50]Hz /
[-10,10]dB), rounded and re-serialized with an explicit sign; the field is
omitted exactly when the base delta is the literal canonical zero ("+0%" /
"+0Hz" / "+0dB") - not for every zero-valued spelling - and a style whose
base deltas are all the canonical zeros yields the empty result. -/
theorem claim_c4_amended (cfg : StylesConfig) (nm : String)
    (sp : StyleParams) (i : Int) (sgn : Bool) (ds : List Char)
    (hlevels : cfg.intensity_levels = defaultIntensityLevels)
    (hnm : nm ≠ "")
    (hfind : (cfg.styles.find? (fun pr => pr.1 == nm)).map Prod.snd = some sp)
    (hne : ds ≠ []) (hdig : allDigits ds = true) :
    (lookup_multiplier cfg 1 = 3 / 10 ∧ lookup_multiplier cfg 2 = 6 / 10 ∧
     lookup_multiplier cfg 3 = 1 ∧ lookup_multiplier cfg 4 = 14 / 10 ∧
     lookup_multiplier cfg 5 = 2) ∧
    (sp.rate = some (String.mk ((if sgn then '+' else '-') :: (ds ++ ['%']))) →
      (get_prosody_params cfg (some nm) i).rate =
        if sgn = true ∧ ds = ['0'] then none
        else some (renderDelta (max (-50) (min 100
          ((digitsToNat ds 0 : ℚ) * lookup_multiplier cfg i *
            (if sgn then 1 else -1)))) (String.mk ['%']))) ∧
    (sp.pitch = some (String.mk
        ((if sgn then '+' else '-') :: (ds ++ ['H', 'z']))) →
      (get_prosody_params cfg (some nm) i).pitch =
        if sgn = true ∧ ds = ['0'] then none
        else some (renderDelta (max (-20) (min 50
          ((digitsToNat ds 0 : ℚ) * lookup_multiplier cfg i *
            (if sgn then 1 else -1)))) (String.mk ['H', 'z']))) ∧
    (sp.volume = some (String.mk
        ((if sgn then '+' else '-') :: (ds ++ ['d', 'B']))) →
      (get_prosody_params cfg (some nm) i).volume =
        if sgn = true ∧ ds = ['0'] then none
        else some (renderDelta (max (-10) (min 10
          ((digitsToNat ds 0 : ℚ) * lookup_multiplier cfg i *
            (if sgn then 1 else -1)))) (String.mk ['d', 'B']))) ∧
    (sp.rate = some ("+0%") → sp.pitch = some ("+0Hz") →
      sp.volume = some ("+0dB") →
      get_prosody_params cfg (some nm) i = {}) := by
  refine ⟨?_, fun hr => ?_, fun hr => ?_, fun hr => ?_, fun h1 h2 h3 => ?_⟩
  · refine ⟨?_, ?_, ?_, ?_, ?_⟩ <;>
      simp [lookup_multiplier, hlevels, defaultIntensityLevels]
  · rw [get_prosody_params_apply cfg nm sp i hnm hfind
      (Or.inl (by rw [hr]; rfl))]
    show (sp.rate.bind fun r =>
      apply_intensity_to_rate r (lookup_multiplier cfg i)) = _
    rw [hr]
    show apply_intensity_core ['+', '0', '%'] ['%'] (-50) 100
      ((if sgn then '+' else '-') :: (ds ++ ['%'])) (lookup_multiplier cfg i) = _
    rw [apply_intensity_core_signed _ _ _ _ _ sgn ds hne hdig]
    have hiff : (((if sgn then '+' else '-') :: (ds ++ ['%'])) =
        ['+', '0', '%']) ↔ (sgn = true ∧ ds = ['0']) :=
      signed_eq_zero_lit_iff sgn ds ['%']
    by_cases hc : sgn = true ∧ ds = ['0']
    · rw [if_pos (hiff.mpr hc), if_pos hc]
    · rw [if_neg (fun hx => hc (hiff.mp hx)), if_neg hc]
  · rw [get_prosody_params_apply cfg nm sp i hnm hfind
      (Or.inr (Or.inl (by rw [hr]; rfl)))]
    show (sp.pitch.bind fun r =>
      apply_intensity_to_pitch r (lookup_multiplier cfg i)) = _
    rw [hr]
    show apply_intensity_core ['+', '0', 'H', 'z'] ['H', 'z'] (-20) 50
      ((if sgn then '+' else '-') :: (ds ++ ['H', 'z']))
      (lookup_multiplier cfg i) = _
    rw [apply_intensity_core_signed _ _ _ _ _ sgn ds hne hdig]
    have hiff : (((if sgn then '+' else '-') :: (ds ++ ['H', 'z'])) =
        ['+', '0', 'H', 'z']) ↔ (sgn = true ∧ ds = ['0']) :=
      signed_eq_zero_lit_iff sgn ds ['H', 'z']
    by_cases hc : sgn = true ∧ ds = ['0']
    · rw [if_pos (hiff.mpr hc), if_pos hc]
    · rw [if_neg (fun hx => hc (hiff.mp hx)), if_neg hc]
  · rw [get_prosody_params_apply cfg nm sp i hnm hfind
      (Or.inr (Or.inr (by rw [hr]; rfl)))]
    show (sp.volume.bind fun r =>
      apply_intensity_to_volume r (lookup_multiplier cfg i)) = _
    rw [hr]
    show apply_intensity_core ['+', '0', 'd', 'B'] ['d', 'B'] (-10) 10
      ((if sgn then '+' else '-') :: (ds ++ ['d', 'B']))
      (lookup_multiplier cfg i) = _
    rw [apply_intensity_core_signed _ _ _ _ _ sgn ds hne hdig]
    have hiff : (((if sgn then '+' else '-') :: (ds ++ ['d', 'B'])) =
        ['+', '0', 'd', 'B']) ↔ (sgn = true ∧ ds = ['0']) :=
      signed_eq_zero_lit_iff sgn ds ['d', 'B']
    by_cases hc : sgn = true ∧ ds = ['0']
    · rw [if_pos (hiff.mpr hc), if_pos hc]
    · rw [if_neg (fun hx => hc (hiff.mp hx)), if_neg hc]
  · rw [get_prosody_params_apply cfg nm sp i hnm hfind
      (Or.inl (by rw [h1]; rfl))]
    simp [apply_style, h1, h2, h3, apply_intensity_to_rate,
      apply_intensity_to_pitch, apply_intensity_to_volume,
      apply_intensity_core]

/-- C4 counterexample: the base delta "+00%" is zero-valued, yet the claim
as stated is false: the code omits only the literal "+0%", so the rate
field is emitted (as "+0%") rather than omitted. -/
theorem claim_c4_counterexample :
    (get_prosody_params c4cfgCx (some ("s")) 3).rate = some ("+0%") := by
  simp [c4cfgCx, get_prosody_params, apply_style, lookup_multiplier,
    defaultIntensityLevels, apply_intensity_to_rate, apply_intensity_core,
    pyFloat, pyFloatCore, digitsToNat, renderDelta, formatF0, roundHalfEven]
  norm_num [Int.fract]
  decide

/-- C4 witness: base "+10%" at intensity 5 (multiplier 2.0) yields "+20%";
an all-canonical-zero style yields the empty result; base "+80%" at
multiplier 2.0 clamps to "+100%". -/
theorem claim_c4_amended_witness :
    (get_prosody_params c4cfg1 (some ("x")) 5).rate = some ("+20%") ∧
    get_prosody_params c4cfgZ (some ("z")) 3 = {} ∧
    (get_prosody_params c4cfg3 (some ("w")) 5).rate = some ("+100%") := by
  refine ⟨?_, ?_, ?_⟩
  · have h := (claim_c4_amended c4cfg1 ("x") ⟨some ("+10%"), none, none⟩ 5
      true ['1', '0'] rfl (by decide) rfl (by decide) (by decide)).2.1
      (by decide)
    refine h.trans ?_
    rw [if_neg (by decide)]
    simp [renderDelta, formatF0, roundHalfEven, digitsToNat,
      lookup_multiplier, c4cfg1, defaultIntensityLevels]
    norm_num [Int.fract]
    decide
  · exact (claim_c4_amended c4cfgZ ("z") c4spZ 3 true ['0'] rfl (by decide)
      rfl (by decide) (by decide)).2.2.2.2 rfl rfl rfl
  · have h := (claim_c4_amended c4cfg3 ("w") ⟨some ("+80%"), none, none⟩ 5
      true ['8', '0'] rfl (by decide) rfl (by decide) (by decide)).2.1
      (by decide)
    refine h.trans ?_
    rw [if_neg (by decide)]
    simp [renderDelta, formatF0, roundHalfEven, digitsToNat,
      lookup_multiplier, c4cfg3, defaultIntensityLevels]
    norm_num [Int.fract]
    decide

/-- C6 (amended): prosody-derived values are written into a backend-native
field only when the caller's value is Python-falsy: a truthy explicit rate,
pitch, rate_int or volume is never replaced, an explicit slow (even False)
is never replaced, and voice/language are never touched - but a falsy
explicit value (empty rate/pitch string, rate_int=0, volume=0.0) is treated
as unset and may be overwritten.  Quantified over every float-power oracle
`fpow10`. -/
theorem claim_c6_amended (fpow10 : ℚ → ℚ) (en : String)
    (p : ConversionParams) (std : ProsodyResult) :
    (pyTruthyStr p.rate = true →
      (convert_prosody_to_engine_params fpow10 en p std).rate = p.rate) ∧
    (pyTruthyStr p.pitch = true →
      (convert_prosody_to_engine_params fpow10 en p std).pitch = p.pitch) ∧
    (pyTruthyInt p.rate_int = true →
      (convert_prosody_to_engine_params fpow10 en p std).rate_int =
        p.rate_int) ∧
    (pyTruthyQ p.volume = true →
      (convert_prosody_to_engine_params fpow10 en p std).volume = p.volume) ∧
    (∀ b, p.slow = some b →
      (convert_prosody_to_engine_params fpow10 en p std).slow = p.slow) ∧
    (convert_prosody_to_engine_params fpow10 en p std).voice = p.voice ∧
    (convert_prosody_to_engine_params fpow10 en p std).language =
      p.language := by
  obtain ⟨stdr, stdp, stdv⟩ := std
  by_cases he1 : (en == "edge_tts") = true
  · simp only [convert_prosody_to_engine_params, he1, if_true]
    refine ⟨?_, ?_, ?_, ?_, ?_, ?_, ?_⟩ <;>
      · intros
        rcases stdr with _ | r <;> rcases stdp with _ | pi <;>
          simp_all [apply_ite (f := ConversionParams.rate),
            apply_ite (f := ConversionParams.pitch),
            apply_ite (f := ConversionParams.rate_int),
            apply_ite (f := ConversionParams.volume),
            apply_ite (f := ConversionParams.slow),
            apply_ite (f := ConversionParams.voice),
            apply_ite (f := ConversionParams.language)]
  · by_cases he2 : (en == "gtts") = true
    · simp only [convert_prosody_to_engine_params, he1, he2, if_true,
        Bool.false_eq_true, if_false]
      refine ⟨?_, ?_, ?_, ?_, ?_, ?_, ?_⟩ <;>
        · intros
          rcases stdr with _ | r <;>
            simp_all [apply_ite (f := ConversionParams.rate),
              apply_ite (f := ConversionParams.pitch),
              apply_ite (f := ConversionParams.rate_int),
              apply_ite (f := ConversionParams.volume),
              apply_ite (f := ConversionParams.slow),
              apply_ite (f := ConversionParams.voice),
              apply_ite (f := ConversionParams.language)]
    · by_cases he3 : (en == "pyttsx3") = true
      · simp only [convert_prosody_to_engine_params, he1, he2, he3, if_true,
          Bool.false_eq_true, if_false]
        refine ⟨?_, ?_, ?_, ?_, ?_, ?_, ?_⟩ <;>
          · intros
            rcases stdr with _ | r
            · rcases stdv with _ | v
              · simp_all [apply_ite (f := ConversionParams.rate),
                  apply_ite (f := ConversionParams.pitch),
                  apply_ite (f := ConversionParams.rate_int),
                  apply_ite (f := ConversionParams.volume),
                  apply_ite (f := ConversionParams.slow),
                  apply_ite (f := ConversionParams.voice),
                  apply_ite (f := ConversionParams.language)]
              · rcases hv : convert_volume_to_float fpow10 v with _ | vol <;>
                  simp_all [apply_ite (f := ConversionParams.rate),
                    apply_ite (f := ConversionParams.pitch),
                    apply_ite (f := ConversionParams.rate_int),
                    apply_ite (f := ConversionParams.volume),
                    apply_ite (f := ConversionParams.slow),
                    apply_ite (f := ConversionParams.voice),
                    apply_ite (f := ConversionParams.language)]
            · rcases stdv with _ | v <;>
                rcases hw : convert_rate_to_wpm r with _ | w <;>
                [skip; skip;
                 rcases hv : convert_volume_to_float fpow10 v with _ | vol;
                 rcases hv : convert_volume_to_float fpow10 v with _ | vol] <;>
                simp_all [apply_ite (f := ConversionParams.rate),
                  apply_ite (f := ConversionParams.pitch),
                  apply_ite (f := ConversionParams.rate_int),
                  apply_ite (f := ConversionParams.volume),
                  apply_ite (f := ConversionParams.slow),
                  apply_ite (f := ConversionParams.voice),
                  apply_ite (f := ConversionParams.language)]
      · simp [convert_prosody_to_engine_params, he1, he2, he3]

/-- C6 counterexample: an explicitly supplied volume 0.0 (valid for the
offline backend) is replaced by the prosody-derived volume, because the
guard is Python truthiness (`not self.params.volume`), not an is-None test.
This holds for the real float power as well: the branch taken does not
depend on the oracle's value. -/
theorem claim_c6_counterexample :
    (convert_prosody_to_engine_params (fun _ => 1) ("pyttsx3")
      { volume := some 0 } { volume := some ("+3dB") }).volume ≠
      some 0 := by
  simp [convert_prosody_to_engine_params, convert_volume_to_float, parseDb,
    pyFloat, pyFloatCore, pyTruthyQ, pyTruthyInt, digitsToNat]
  norm_num

/-- C6 witness: truthy explicit rate wins over prosody; explicit slow=False
wins; truthy explicit volume wins. -/
theorem claim_c6_amended_witness :
    (convert_prosody_to_engine_params (fun _ => 1) ("edge_tts")
      { rate := some ("+30%") } { rate := some ("+10%") }).rate =
      some ("+30%") ∧
    (convert_prosody_to_engine_params (fun _ => 1) ("gtts")
      { slow := some false } { rate := some ("-20%") }).slow =
      some false ∧
    (convert_prosody_to_engine_params (fun _ => 1) ("pyttsx3")
      { volume := some (3 / 10) } { volume := some ("+3dB") }).volume =
      some (3 / 10) := by
  refine ⟨?_, ?_, ?_⟩
  · exact ((claim_c6_amended (fun _ => 1) ("edge_tts")
      { rate := some ("+30%") } { rate := some ("+10%") }).1
      (by decide)).trans rfl
  · exact ((claim_c6_amended (fun _ => 1) ("gtts")
      { slow := some false } { rate := some ("-20%") }).2.2.2.2.1 false
      rfl).trans rfl
  · exact ((claim_c6_amended (fun _ => 1) ("pyttsx3")
      { volume := some (3 / 10) } { volume := some ("+3dB") }).2.2.2.1
      (by norm_num [pyTruthyQ])).trans rfl

theorem renderDelta_head_neg_iff (q : ℚ) (u : String) :
    ((renderDelta q u).data.head? = some '-') ↔ q < 0 := by
  unfold renderDelta
  by_cases hq : (0 : ℚ) ≤ q
  · rw [if_pos hq]
    constructor
    · intro h
      rw [String.data_append, String.data_append] at h
      simp at h
    · intro h
      exact absurd h (not_lt.mpr hq)
  · rw [if_neg hq]
    push_neg at hq
    constructor
    · intro _
      exact hq
    · intro _
      rw [String.data_append, String.data_append]
      have hle : roundHalfEven q ≤ 0 := by
        have hf : ⌊q⌋ ≤ -1 := by
          have h2 : ⌊q⌋ < 0 :=
            Int.cast_lt_zero.mp (lt_of_le_of_lt (Int.floor_le q) hq)
          omega
        unfold roundHalfEven
        simp only []
        split_ifs <;> omega
      unfold formatF0
      by_cases hr0 : roundHalfEven q = 0
      · rw [if_pos ⟨hq, hr0⟩]
        rfl
      · rw [if_neg (fun hx => hr0 hx.2)]
        have hlt : roundHalfEven q < 0 := lt_of_le_of_ne hle hr0
        obtain ⟨m, hm⟩ : ∃ m, roundHalfEven q = Int.negSucc m := by
          rcases hk : roundHalfEven q with n | m
          · rw [hk] at hlt
            exact absurd hlt (by exact Int.not_lt.mpr (Int.ofNat_nonneg n))
          · exact ⟨m, rfl⟩
        rw [hm]
        rfl

theorem dropWhile_plus_digits (ds : List Char) (hne : ds ≠ [])
    (hdig : allDigits ds = true) :
    ds.dropWhile (fun c => c == '+') = ds := by
  cases ds with
  | nil => exact absurd rfl hne
  | cons d ds' =>
      have hd : d.isDigit = true := by
        simp only [allDigits, Bool.and_eq_true] at hdig
        exact hdig.1
      have hplus : (d == '+') = false := by
        refine beq_eq_false_iff_ne.mpr (fun he => ?_)
        rw [he] at hd
        exact absurd hd (by decide)
      simp [List.dropWhile_cons, hplus]

theorem pyFloatCore_digits (ds : List Char) (hne : ds ≠ [])
    (hdig : allDigits ds = true) :
    pyFloatCore ds = some ((digitsToNat ds 0 : ℚ)) := by
  cases ds with
  | nil => exact absurd rfl hne
  | cons d ds' =>
      simp [pyFloatCore, takeWhile_allDigits _ hdig, List.drop_length]

/-- C7: the facade's prosody-to-backend translation: for gTTS a prosody
rate delta sets slow=true iff the delta string is negatively signed
(irrespective of magnitude; a rendered delta starts with a minus sign iff
the underlying value is negative), while prosody pitch and volume are
ignored entirely; for pyttsx3 a percentage delta p becomes
int(200 * (1 + p/100)) words per minute (which equals 200 + 2p exactly for
integer p) and a dB delta d becomes the clamped 0.5 * 10^(d/20) - stated
both for the abstracted float power `fpow10` and, for the ideal real
formula, with the clamp to [0, 1] shown to be inactive for d <= 0. -/
theorem claim_c7_backend_translations :
    (∀ (f : ℚ → ℚ) (p : ConversionParams) (std : ProsodyResult) (r : String),
      p.slow = none → std.rate = some r →
      convert_prosody_to_engine_params f ("gtts") p std =
        (if r.data.head? == some '-' then { p with slow := some true }
          else p)) ∧
    (∀ (f : ℚ → ℚ) (p : ConversionParams) (std : ProsodyResult),
      std.rate = none →
      convert_prosody_to_engine_params f ("gtts") p std = p) ∧
    (∀ (q : ℚ) (u : String),
      ((renderDelta q u).data.head? = some '-') ↔ q < 0) ∧
    (∀ (sgn : Bool) (ds : List Char), ds ≠ [] → allDigits ds = true →
      convert_rate_to_wpm (String.mk
          ((if sgn then '+' else '-') :: (ds ++ ['%']))) =
        some (truncQ (200 * (1 +
          ((digitsToNat ds 0 : ℚ) * (if sgn then 1 else -1)) / 100)))) ∧
    (∀ pz : Int, truncQ (200 * (1 + (pz : ℚ) / 100)) = 200 + 2 * pz) ∧
    (∀ (f : ℚ → ℚ) (sgn : Bool) (ds : List Char), ds ≠ [] →
      allDigits ds = true →
      convert_volume_to_float f (String.mk
          ((if sgn then '+' else '-') :: (ds ++ ['d', 'B']))) =
        some (max 0 (min 1 ((1 / 2) *
          f ((if sgn then (digitsToNat ds 0 : ℚ)
              else -(digitsToNat ds 0 : ℚ)) / 20))))) ∧
    (∀ d : ℚ, (0 : ℝ) ≤ dbToLinearIdeal d ∧ dbToLinearIdeal d ≤ 1 ∧
      (d ≤ 0 → dbToLinearIdeal d =
        (1 / 2) * (10 : ℝ) ^ ((d : ℝ) / 20))) := by
  refine ⟨?_, ?_, renderDelta_head_neg_iff, ?_, ?_, ?_, ?_⟩
  · intro f p std r hslow hrate
    obtain ⟨stdr, stdp, stdv⟩ := std
    cases hrate
    by_cases hneg : (r.data.head? == some '-') = true <;>
      simp [convert_prosody_to_engine_params, hslow, hneg]
  · intro f p std hrate
    obtain ⟨stdr, stdp, stdv⟩ := std
    cases hrate
    simp [convert_prosody_to_engine_params]
  · intro sgn ds hne hdig
    unfold convert_rate_to_wpm
    cases sgn with
    | true =>
        simp only [if_true, List.head?_cons, List.tail_cons]
        rw [show ((some '+' == some '+') : Bool) = true from rfl]
        simp only [if_true, Bool.true_or]
        rw [show ((ds ++ ['%']).getLast? : Option Char) = some '%' by simp]
        simp only [beq_self_eq_true, if_true]
        rw [show (ds ++ ['%']).dropLast = ds by simp]
        rw [pyFloat_digits ds hne hdig]
    | false =>
        simp only [Bool.false_eq_true, if_false, List.head?_cons,
          List.tail_cons]
        rw [show ((some '-' == some '+') : Bool) = false from rfl,
          show ((some '-' == some '-') : Bool) = true from rfl]
        simp only [Bool.false_eq_true, if_false, Bool.false_or, if_true]
        rw [show ((ds ++ ['%']).getLast? : Option Char) = some '%' by simp]
        simp only [beq_self_eq_true, if_true]
        rw [show (ds ++ ['%']).dropLast = ds by simp]
        rw [pyFloat_digits ds hne hdig]
  · intro pz
    have hcast : (200 : ℚ) * (1 + (pz : ℚ) / 100) =
        ((200 + 2 * pz : Int) : ℚ) := by
      push_cast; ring
    rw [hcast]
    unfold truncQ
    split_ifs with h
    · exact Int.floor_intCast _
    · rw [show -((200 + 2 * pz : Int) : ℚ) = ((-(200 + 2 * pz) : Int) : ℚ)
        by push_cast; ring]
      rw [Int.floor_intCast]
      ring
  · intro f sgn ds hne hdig
    unfold convert_volume_to_float parseDb
    cases sgn with
    | true =>
        have hlen : ('+' :: (ds ++ ['d', 'B'])).length - 2 = ds.length + 1 := by
          simp [List.length_append]
        simp only [if_true]
        rw [hlen]
        rw [show List.drop (ds.length + 1) ('+' :: (ds ++ ['d', 'B'])) =
          List.drop ds.length (ds ++ ['d', 'B']) from rfl]
        rw [List.drop_left]
        simp only [beq_self_eq_true, if_true]
        rw [show List.take (ds.length + 1) ('+' :: (ds ++ ['d', 'B'])) =
          '+' :: List.take ds.length (ds ++ ['d', 'B']) from rfl]
        rw [List.take_left]
        rw [show List.dropWhile (fun c => c == '+') ('+' :: ds) =
          List.dropWhile (fun c => c == '+') ds by
            simp [List.dropWhile_cons]]
        rw [dropWhile_plus_digits ds hne hdig]
        rw [pyFloat_digits ds hne hdig]
        rfl
    | false =>
        have hlen : ('-' :: (ds ++ ['d', 'B'])).length - 2 = ds.length + 1 := by
          simp [List.length_append]
        simp only [Bool.false_eq_true, if_false]
        rw [hlen]
        rw [show List.drop (ds.length + 1) ('-' :: (ds ++ ['d', 'B'])) =
          List.drop ds.length (ds ++ ['d', 'B']) from rfl]
        rw [List.drop_left]
        simp only [beq_self_eq_true, if_true]
        rw [show List.take (ds.length + 1) ('-' :: (ds ++ ['d', 'B'])) =
          '-' :: List.take ds.length (ds ++ ['d', 'B']) from rfl]
        rw [List.take_left]
        rw [show List.dropWhile (fun c => c == '+') ('-' :: ds) =
          '-' :: ds by simp [List.dropWhile_cons]]
        rw [pyFloat]
        rw [show (('-' : Char) == '+') = false from rfl,
          show (('-' : Char) == '-') = true from rfl]
        simp only [Bool.false_eq_true, if_false, if_true]
        rw [pyFloatCore_digits ds hne hdig]
        rfl
  · intro d
    refine ⟨le_max_left _ _, ?_, fun hd => ?_⟩
    · exact max_le (by norm_num) (min_le_left _ _)
    · unfold dbToLinearIdeal
      have hexp : ((d : ℝ) / 20) ≤ 0 := by
        apply div_nonpos_of_nonpos_of_nonneg
        · exact_mod_cast hd
        · norm_num
      have hpow1 : (10 : ℝ) ^ ((d : ℝ) / 20) ≤ 1 :=
        Real.rpow_le_one_of_one_le_of_nonpos (by norm_num) hexp
      have hpow0 : (0 : ℝ) ≤ (10 : ℝ) ^ ((d : ℝ) / 20) :=
        Real.rpow_nonneg (by norm_num) _
      rw [min_eq_right (by nlinarith), max_eq_right (by nlinarith)]

/-- C7 witness: a -20% delta under gTTS sets slow; -0.3 renders with a
minus sign; -30% becomes 140 wpm; +6dB under the unit power oracle clamps
to 0.5; the ideal formula lies in [0, 1] and is unclamped at -3dB. -/
theorem claim_c7_backend_translations_witness :
    convert_prosody_to_engine_params (fun _ => 1) ("gtts") {}
      { rate := some ("-20%") } = { slow := some true } ∧
    ((renderDelta (-3 / 10) ("%")).data.head? = some '-') ∧
    convert_rate_to_wpm ("-30%") = some 140 ∧
    convert_volume_to_float (fun _ => 1) ("+6dB") = some (1 / 2) ∧
    (0 : ℝ) ≤ dbToLinearIdeal (-3) ∧ dbToLinearIdeal (-3) ≤ 1 ∧
    dbToLinearIdeal (-3) =
      (1 / 2) * (10 : ℝ) ^ (((-3 : ℚ) : ℝ) / 20) := by
  refine ⟨?_, ?_, ?_, ?_, ?_, ?_, ?_⟩
  · exact (claim_c7_backend_translations.1 (fun _ => 1) {}
      { rate := some ("-20%") } ("-20%") rfl rfl).trans (by decide)
  · exact (claim_c7_backend_translations.2.2.1 (-3 / 10) ("%")).mpr
      (by norm_num)
  · refine (claim_c7_backend_translations.2.2.2.1 false ['3', '0']
      (by decide) (by decide)).trans ?_
    norm_num [digitsToNat, show ('3'.toNat : ℕ) = 51 from rfl,
      show ('0'.toNat : ℕ) = 48 from rfl, truncQ]
  · refine (claim_c7_backend_translations.2.2.2.2.2.1 (fun _ => 1) true
      ['6'] (by decide) (by decide)).trans ?_
    norm_num
  · exact (claim_c7_backend_translations.2.2.2.2.2.2 (-3)).1
  · exact (claim_c7_backend_translations.2.2.2.2.2.2 (-3)).2.1
  · exact (claim_c7_backend_translations.2.2.2.2.2.2 (-3)).2.2 (by norm_num)

theorem ssml_prefix_strip_iff (text : String) :
    List.isPrefixOf (("<speak").data) (pyStrip text).data =
      List.isPrefixOf (("<speak").data) (pyLstrip text).data := by
  rw [Bool.eq_iff_iff]
  rw [List.isPrefixOf_iff_prefix, List.isPrefixOf_iff_prefix]
  unfold pyStrip pyLstrip
  constructor
  · intro h
    refine h.trans ?_
    have hsuf : (text.data.dropWhile pyIsSpace).reverse.dropWhile pyIsSpace
        <:+ (text.data.dropWhile pyIsSpace).reverse :=
      List.dropWhile_suffix pyIsSpace
    have := List.reverse_suffix.mp
      (by simpa using hsuf :
        (((text.data.dropWhile pyIsSpace).reverse.dropWhile
          pyIsSpace).reverse).reverse <:+
          (text.data.dropWhile pyIsSpace).reverse)
    simpa using this
  · intro h
    obtain ⟨t, ht⟩ := h
    have ht' : ("<speak").data ++ t = text.data.dropWhile pyIsSpace := ht
    show ("<speak").data <+:
      (((text.data.dropWhile pyIsSpace).reverse.dropWhile pyIsSpace).reverse)
    rw [← ht', List.reverse_append, List.dropWhile_append]
    by_cases hc : ((t.reverse.dropWhile pyIsSpace).isEmpty) = true
    · rw [if_pos hc]
      rw [show (("<speak").data.reverse.dropWhile pyIsSpace) =
        ("<speak").data.reverse from rfl]
      simp
    · rw [if_neg hc, List.reverse_append, List.reverse_reverse]
      exact List.prefix_append _ _

/-- C9: if the input text, after stripping leading whitespace, begins with
the markup root tag `<speak`, the EdgeTTS conversion passes the neutral
"+0%" / "+0Hz" instead of the selected rate/pitch and forwards the text
verbatim; otherwise the caller-selected (or engine-default) rate and pitch
are passed through.  (The source strips both ends; stripping the trailing
end cannot affect a `<speak` prefix - `ssml_prefix_strip_iff`.) -/
theorem claim_c9_ssml_passthrough (eng : EdgeEngineCfg) (text : String)
    (p : ConversionParams) :
    (edge_perform_conversion eng text p).text = text ∧
    (edge_perform_conversion eng text p).voice =
      edge_determine_voice eng p.voice p.language ∧
    (List.isPrefixOf (("<speak").data) (pyLstrip text).data = true →
      (edge_perform_conversion eng text p).rate = ("+0%") ∧
      (edge_perform_conversion eng text p).pitch = ("+0Hz")) ∧
    (List.isPrefixOf (("<speak").data) (pyLstrip text).data = false →
      (edge_perform_conversion eng text p).rate =
        (if pyTruthyStr p.rate then p.rate.getD ("") else eng.rate) ∧
      (edge_perform_conversion eng text p).pitch =
        (if pyTruthyStr p.pitch then p.pitch.getD ("") else eng.pitch)) := by
  unfold edge_perform_conversion
  rw [ssml_prefix_strip_iff]
  refine ⟨rfl, rfl, fun h => ?_, fun h => ?_⟩
  · rw [h]
    exact ⟨rfl, rfl⟩
  · rw [h]
    exact ⟨rfl, rfl⟩

/-- C9 witness: an SSML text with leading whitespace suppresses rate and
pitch and is forwarded verbatim; plain text passes the explicit rate or the
engine default through. -/
theorem claim_c9_ssml_passthrough_witness :
    (edge_perform_conversion {} ("  <speak>x</speak>")
      { rate := some ("+30%"), pitch := some ("-5Hz") }).rate = ("+0%") ∧
    (edge_perform_conversion {} ("  <speak>x</speak>")
      { rate := some ("+30%"), pitch := some ("-5Hz") }).pitch = ("+0Hz") ∧
    (edge_perform_conversion {} ("  <speak>x</speak>")
      { rate := some ("+30%"), pitch := some ("-5Hz") }).text =
      ("  <speak>x</speak>") ∧
    (edge_perform_conversion {} ("hello")
      { rate := some ("+30%") }).rate = ("+30%") ∧
    (edge_perform_conversion {} ("hello") {}).rate = ("+0%") := by
  refine ⟨?_, ?_, ?_, ?_, ?_⟩
  · exact ((claim_c9_ssml_passthrough {} ("  <speak>x</speak>")
      { rate := some ("+30%"), pitch := some ("-5Hz") }).2.2.1
      (by decide)).1
  · exact ((claim_c9_ssml_passthrough {} ("  <speak>x</speak>")
      { rate := some ("+30%"), pitch := some ("-5Hz") }).2.2.1
      (by decide)).2
  · exact (claim_c9_ssml_passthrough {} ("  <speak>x</speak>")
      { rate := some ("+30%"), pitch := some ("-5Hz") }).1
  · exact (((claim_c9_ssml_passthrough {} ("hello")
      { rate := some ("+30%") }).2.2.2 (by decide)).1).trans (by decide)
  · exact (((claim_c9_ssml_passthrough {} ("hello") {}).2.2.2
      (by decide)).1).trans (by decide)

/-- C8 (amended): voice validation extracts one display name per listed
voice - the `name` key if present, else `Name`, else `id`, else "" - and
accepts the requested voice iff it equals one of these display names by
case-sensitive string comparison; on absence it fails with at most ten
sorted sample names and, when more than ten voices exist, a count of the
remainder; the converter facade delegates to this check exactly when an
explicit (truthy) voice was given and the earlier checks pass. -/
theorem claim_c8_amended (engines : List (String × Engine)) (en nm : String)
    (eng : Engine) (voice : String) (voices : List VoiceDict)
    (hf : engines.find? (fun pr => pr.1 == en) = some (nm, eng))
    (ha : eng.st.is_available = true) :
    ((validate_voice_for_engine engines en voice voices).1 = true ↔
      voice ∈ voices.map voiceDisplayName) ∧
    (voice ∉ voices.map voiceDisplayName →
      (validate_voice_for_engine engines en voice voices).1 = false) ∧
    ((pySortedStrings (voices.map voiceDisplayName)).take 10).length ≤ 10 ∧
    (voice ∉ voices.map voiceDisplayName →
      (voices.map voiceDisplayName).length ≤ 10 →
      (validate_voice_for_engine engines en voice voices).2 =
        "Voice " ++ apos ++ voice ++ apos ++ " not available in " ++ en ++
          ". Available voices: " ++ String.intercalate (", ")
            ((pySortedStrings (voices.map voiceDisplayName)).take 10)) ∧
    (voice ∉ voices.map voiceDisplayName →
      (voices.map voiceDisplayName).length > 10 →
      (validate_voice_for_engine engines en voice voices).2 =
        "Voice " ++ apos ++ voice ++ apos ++ " not available in " ++ en ++
          ". Available voices: " ++ String.intercalate (", ")
            ((pySortedStrings (voices.map voiceDisplayName)).take 10) ++
          " (and " ++ toString ((voices.map voiceDisplayName).length - 10) ++
          " more)") ∧
    (∀ p : ConversionParams, pyTruthyStr p.voice = true →
      (list_available_engines engines).contains en = true →
      (eng.validate p).1 = true →
      validate_request engines en p voices =
        validate_voice_for_engine engines en (p.voice.getD ("")) voices) := by
  have hcont : ∀ b : Bool, (voices.map voiceDisplayName).contains voice = b →
      (validate_voice_for_engine engines en voice voices).1 = b := by
    intro b hb
    cases b with
    | true =>
        simp only [validate_voice_for_engine, hf, ha, Bool.not_true,
          Bool.false_eq_true, if_false]
        rw [if_pos hb]
    | false =>
        simp only [validate_voice_for_engine, hf, ha, Bool.not_true,
          Bool.false_eq_true, if_false]
        rw [if_neg (by rw [hb]; exact Bool.false_ne_true)]
        by_cases hl : (voices.map voiceDisplayName).length > 10
        · rw [if_pos hl]
        · rw [if_neg hl]
  refine ⟨?_, ?_, ?_, ?_, ?_, ?_⟩
  · constructor
    · intro h
      by_contra hmem
      have : (voices.map voiceDisplayName).contains voice = false := by
        simp [List.contains, hmem]
      rw [hcont false this] at h
      exact absurd h (by simp)
    · intro hmem
      exact hcont true (by simp [List.contains, hmem])
  · intro hmem
    exact hcont false (by simp [List.contains, hmem])
  · simp [List.length_take]
  · intro hmem hlen
    have hb : (voices.map voiceDisplayName).contains voice = false := by
      simp [List.contains, hmem]
    simp only [validate_voice_for_engine, hf, ha, Bool.not_true,
      Bool.false_eq_true, if_false]
    rw [if_neg (by rw [hb]; exact Bool.false_ne_true), if_neg (by omega)]
  · intro hmem hlen
    have hb : (voices.map voiceDisplayName).contains voice = false := by
      simp [List.contains, hmem]
    simp only [validate_voice_for_engine, hf, ha, Bool.not_true,
      Bool.false_eq_true, if_false]
    rw [if_neg (by rw [hb]; exact Bool.false_ne_true), if_pos (by omega)]
  · intro p hv havail hvalid
    simp only [validate_request, havail, hf, hvalid, hv, Bool.not_true,
      Bool.false_eq_true, if_false, if_true]

/-- C8 counterexample: the claim as stated is false: a voice equal to a
listing entry's `id` field is rejected when that entry also has a `name`
field, because only the highest-priority key per voice is compared
(`v.get('name', v.get('Name', v.get('id', '')))`). -/
theorem claim_c8_counterexample :
    (validate_voice_for_engine
      [(("e" : String), ⟨⟨true, "", 0⟩, fun _ => (true, "")⟩)] ("e") ("B")
      [{ name := some ("A"), id := some ("B") }]).1 = false ∧
    ({ name := some ("A"), id := some ("B") } : VoiceDict).id =
      some ("B") := by
  exact ⟨rfl, rfl⟩

/-- C8 witness: display-name match accepted; mismatch message lists the
sample names; the sample is capped at ten. -/
theorem claim_c8_amended_witness :
    (validate_voice_for_engine
      [(("e" : String), ⟨⟨true, "", 0⟩, fun _ => (true, "")⟩)] ("e") ("A")
      [{ name := some ("A"), id := some ("B") }]).1 = true ∧
    (validate_voice_for_engine
      [(("e" : String), ⟨⟨true, "", 0⟩, fun _ => (true, "")⟩)] ("e") ("Z")
      [{ name := some ("A"), id := some ("B") }]).2 =
      "Voice " ++ apos ++ "Z" ++ apos ++ " not available in " ++ "e" ++
        ". Available voices: " ++ "A" ∧
    ((pySortedStrings ([{ name := some ("A"), id := some ("B") }].map
      voiceDisplayName)).take 10).length ≤ 10 := by
  have h := claim_c8_amended
    [(("e" : String), ⟨⟨true, "", 0⟩, fun _ => (true, "")⟩)] ("e") ("e")
    ⟨⟨true, "", 0⟩, fun _ => (true, "")⟩ ("A")
    [{ name := some ("A"), id := some ("B") }] rfl rfl
  have h2 := claim_c8_amended
    [(("e" : String), ⟨⟨true, "", 0⟩, fun _ => (true, "")⟩)] ("e") ("e")
    ⟨⟨true, "", 0⟩, fun _ => (true, "")⟩ ("Z")
    [{ name := some ("A"), id := some ("B") }] rfl rfl
  refine ⟨h.1.mpr (by decide), ?_, h.2.2.1⟩
  refine (h2.2.2.2.1 (by decide) (by decide)).trans ?_
  simp [pySortedStrings, voiceDisplayName]
  rfl

end Podcast
